import Mathlib

/-!
# Timeslot session manager

A shallow embedding of `timeslot.c` / `timeslot.h` (the MPSL timeslot session
manager of the BLE + ESB demo) and theorems about it.

Modelling conventions

* The file-scope variables of `timeslot.c` are the fields of `State`.
* Every call that leaves the module (GPIO debug pins, TIMER0 and NVIC
  registers, `k_poll_signal_raise`, `k_sleep`, the MPSL API, the user
  callbacks) is appended, in program order, to `State.trace`.
  `LOG_INF` output is not recorded.
* Values that come back from the platform (`mpsl_*` return codes, the session
  id written by `mpsl_timeslot_session_open`, the Kconfig constant
  `CONFIG_SDC_MAX_CONN_EVENT_LEN_DEFAULT`) are read from a `Platform` record.
* `uint32_t` / `uint8_t` values are natural numbers; arithmetic that can wrap
  is reduced modulo `2 ^ 32` / `2 ^ 8` explicitly.
* A pointer to a struct is an `Option` (`none` is the null pointer); a function
  pointer is its address (`0` is the null pointer).  Dereferencing a null
  struct pointer or calling a null function pointer has no defined result and
  is `none`.
* The build flags are the ones of the sources: `TS_GPIO_DEBUG = 1` and
  `TIMESLOT_CALLS_RADIO_IRQHANDLER = 1`.
-/

namespace Timeslot

/-! ## timeslot.h -/

/-- Build flag of timeslot.h: `RADIO_IRQHandler()` is called directly instead of
the `radio_irq` callback. -/
def TIMESLOT_CALLS_RADIO_IRQHANDLER : Bool := true

def TIMESLOT_ERROR_REQUESTS_FAILED : Int := 94
def TIMESLOT_ERROR_OVERSTAYED : Int := 93
def TIMESLOT_ERROR_INTERNAL : Int := 92
def TIMESLOT_ERROR_SESSION_ALREADY_OPENED : Int := 91
def TIMESLOT_ERROR_TIMESLOT_ALREADY_STARTED : Int := 90
def TIMESLOT_ERROR_NO_TIMESLOT_STARTED : Int := 89
def TIMESLOT_ERROR_INVALID_PARAM : Int := 88

/-- The `struct timeslot_config` of timeslot.h (`hfclk`, `skipped_tolerance` are
`uint8_t`, the other two `uint32_t`). -/
structure timeslot_config where
  hfclk : Nat
  timeout_us : Nat
  safety_margin_us : Nat
  skipped_tolerance : Nat
deriving DecidableEq, Repr

/-- The `TS_DEFAULT_CONFIG` initialiser; the value of
`MPSL_TIMESLOT_HFCLK_CFG_XTAL_GUARANTEED` comes from the MPSL headers and is an
argument. -/
def TS_DEFAULT_CONFIG (MPSL_TIMESLOT_HFCLK_CFG_XTAL_GUARANTEED : Nat) : timeslot_config :=
  { hfclk := MPSL_TIMESLOT_HFCLK_CFG_XTAL_GUARANTEED
    timeout_us := 2000000
    safety_margin_us := 100
    skipped_tolerance := 5 }

/-- The `struct timeslot_cb` of timeslot.h: six function pointers, each given by
its address (`0` is the null pointer).  The C field `end` is spelled `end_`. -/
structure timeslot_cb where
  error : Nat
  start : Nat
  end_ : Nat
  skipped : Nat
  stopped : Nat
  radio_irq : Nat
deriving DecidableEq, Repr

/-! ## timeslot.c: constants and types -/

def TIMESLOT_OPEN_PIN : Nat := 4
def TIMESLOT_BLOCKED_PIN : Nat := 28
def TIMESLOT_CANCELLED_PIN : Nat := 30
def RADIO_NOTIFICATION_PIN : Nat := 2
def REQUEST_PIN : Nat := 31

def TS_RNH_DISTANCE_US : Int := 800
def TS_REQUEST_DELAY_US : Int := 2600

/-- The `enum SIGNAL_CODE` of timeslot.c: the codes raised on `timeslot_sig`. -/
inductive SIGNAL_CODE where
  | SIGNAL_CODE_START
  | SIGNAL_CODE_TIMER0
  | SIGNAL_CODE_RADIO
  | SIGNAL_CODE_BLOCKED_CANCELLED
  | SIGNAL_CODE_OVERSTAYED
  | SIGNAL_CODE_IDLE
  | SIGNAL_CODE_RNH_ACTIVE
  | SIGNAL_CODE_UNEXPECTED
  | SIGNAL_CODE_MPSL_START
deriving DecidableEq, Repr

/-- The MPSL signals that `mpsl_cb` switches on (`enum MPSL_TIMESLOT_SIGNAL` of
the MPSL headers). -/
inductive MPSL_TIMESLOT_SIGNAL where
  | MPSL_TIMESLOT_SIGNAL_START
  | MPSL_TIMESLOT_SIGNAL_TIMER0
  | MPSL_TIMESLOT_SIGNAL_RADIO
  | MPSL_TIMESLOT_SIGNAL_EXTEND_FAILED
  | MPSL_TIMESLOT_SIGNAL_EXTEND_SUCCEEDED
  | MPSL_TIMESLOT_SIGNAL_BLOCKED
  | MPSL_TIMESLOT_SIGNAL_CANCELLED
  | MPSL_TIMESLOT_SIGNAL_SESSION_IDLE
  | MPSL_TIMESLOT_SIGNAL_INVALID_RETURN
  | MPSL_TIMESLOT_SIGNAL_SESSION_CLOSED
  | MPSL_TIMESLOT_SIGNAL_OVERSTAYED
deriving DecidableEq, Repr

open SIGNAL_CODE MPSL_TIMESLOT_SIGNAL

/-- The `callback_action` a signal handler hands back to the MPSL:
`action_none` or `action_end`. -/
inductive callback_action where
  | MPSL_TIMESLOT_SIGNAL_ACTION_NONE
  | MPSL_TIMESLOT_SIGNAL_ACTION_END
deriving DecidableEq, Repr

open callback_action

/-- The mutable part of the static `request_earliest` (its request type
`MPSL_TIMESLOT_REQ_TYPE_EARLIEST` and priority `MPSL_TIMESLOT_PRIORITY_NORMAL`
are never written after the initialiser). -/
structure mpsl_timeslot_request_t where
  hfclk : Nat
  length_us : Nat
  timeout_us : Nat
deriving DecidableEq, Repr

/-- Calls that leave the module, as recorded in `State.trace`. -/
inductive Effect where
  | nrf_gpio_cfg_output (pin : Nat)
  | nrf_gpio_pin_write (pin : Nat) (value : Nat)
  | nrf_gpio_pin_set (pin : Nat)
  | nrf_gpio_pin_clear (pin : Nat)
  /-- The write `NRF_TIMER0->CC[0] = value`. -/
  | TIMER0_CC0 (value : Nat)
  /-- The write `NRF_TIMER0->INTENSET = COMPARE0`. -/
  | TIMER0_INTENSET_COMPARE0
  /-- The write `NRF_TIMER0->TASKS_STOP = 1`. -/
  | TIMER0_TASKS_STOP
  /-- The call `NVIC_EnableIRQ(TIMER0_IRQn)`. -/
  | NVIC_EnableIRQ_TIMER0
  /-- The call `NVIC_SetPendingIRQ(TIMESLOT_IRQN)`, which triggers `radio_notify_cb`. -/
  | NVIC_SetPendingIRQ_TIMESLOT
  | RADIO_IRQHandler
  /-- The `IRQ_CONNECT` of `radio_notify_cb` to the timeslot interrupt. -/
  | IRQ_CONNECT_radio_notify_cb
  | irq_enable
  | k_poll_signal_raise (code : SIGNAL_CODE)
  | k_sleep_usec (usec : Int)
  | mpsl_timeslot_request (session_id : Nat) (request : mpsl_timeslot_request_t)
  | mpsl_radio_notification_cfg_set
  | mpsl_timeslot_session_open
  | call_error (err : Int)
  | call_start
  | call_end
  | call_radio_irq
  | call_skipped (count : Nat)
  | call_stopped
deriving DecidableEq, Repr

/-- The file-scope variables of timeslot.c, and the trace of outgoing calls.
`mpsl_callback_signal = none` stands for `INVALID_MPSL_SIGNAL`. -/
structure State where
  ts_len_us : Nat
  blocked_cancelled_count : Nat
  session_open : Bool
  timeslot_started : Bool
  timeslot_stopping : Bool
  timeslot_requested : Bool
  mpsl_callback_signal : Option MPSL_TIMESLOT_SIGNAL
  p_timeslot_config : Option timeslot_config
  p_timeslot_callbacks : Option timeslot_cb
  mpsl_session_id : Nat
  request_earliest : mpsl_timeslot_request_t
  trace : List Effect
deriving DecidableEq, Repr

/-- The state at program start: zero-initialised statics, `mpsl_callback_signal`
set to `INVALID_MPSL_SIGNAL`, nothing called yet. -/
def initial_state : State :=
  { ts_len_us := 0
    blocked_cancelled_count := 0
    session_open := false
    timeslot_started := false
    timeslot_stopping := false
    timeslot_requested := false
    mpsl_callback_signal := none
    p_timeslot_config := none
    p_timeslot_callbacks := none
    mpsl_session_id := 0
    request_earliest := { hfclk := 0, length_us := 0, timeout_us := 0 }
    trace := [] }

/-- Values the platform hands to one iteration of the worker thread. -/
structure Platform where
  CONFIG_SDC_MAX_CONN_EVENT_LEN_DEFAULT : Int
  /-- Return value of `mpsl_radio_notification_cfg_set`. -/
  cfg_set_err : Int
  /-- Return value of `mpsl_timeslot_session_open`. -/
  session_open_err : Int
  /-- Session id written by `mpsl_timeslot_session_open`. -/
  session_id : Nat
  /-- Return value of `mpsl_timeslot_request`. -/
  request_err : Int
deriving DecidableEq, Repr

/-- Unsigned 32-bit subtraction `a - b`. -/
def sub_u32 (a b : Nat) : Nat :=
  (a % 4294967296 + (4294967296 - b % 4294967296)) % 4294967296

/-- Append outgoing calls to the trace. -/
def State.emit (s : State) (es : List Effect) : State :=
  { s with trace := s.trace ++ es }

/-- A call `p_timeslot_callbacks->fn(...)`: undefined when the table pointer or
the function pointer is null, otherwise recorded as `e`. -/
def State.call (s : State) (fn : timeslot_cb → Nat) (e : Effect) : Option State :=
  match s.p_timeslot_callbacks with
  | none => none
  | some cb => if fn cb = 0 then none else some (s.emit [e])

/-! ## timeslot.c: functions -/

/-- The signal handler `mpsl_cb` (runs in the MPSL interrupt context). -/
def mpsl_cb (s : State) (signal : MPSL_TIMESLOT_SIGNAL) : Option (callback_action × State) :=
  match signal with
  | MPSL_TIMESLOT_SIGNAL_START =>
    let s1 := s.emit [Effect.nrf_gpio_pin_write TIMESLOT_OPEN_PIN 1]
    if s1.timeslot_stopping then
      some (MPSL_TIMESLOT_SIGNAL_ACTION_END,
        s1.emit [Effect.nrf_gpio_pin_write TIMESLOT_OPEN_PIN 0,
                 Effect.nrf_gpio_pin_write TIMESLOT_OPEN_PIN 0,
                 Effect.nrf_gpio_pin_write TIMESLOT_OPEN_PIN 0,
                 Effect.nrf_gpio_pin_write TIMESLOT_OPEN_PIN 0,
                 Effect.nrf_gpio_pin_write TIMESLOT_OPEN_PIN 0,
                 Effect.nrf_gpio_pin_write TIMESLOT_OPEN_PIN 0,
                 Effect.nrf_gpio_pin_write TIMESLOT_OPEN_PIN 1])
    else
      match s1.p_timeslot_config with
      | none => none
      | some config =>
        let s2 := s1.emit [Effect.TIMER0_CC0 (sub_u32 s1.ts_len_us config.safety_margin_us),
                           Effect.TIMER0_INTENSET_COMPARE0]
        let s3 := { s2 with mpsl_callback_signal := some MPSL_TIMESLOT_SIGNAL_START }
        some (MPSL_TIMESLOT_SIGNAL_ACTION_NONE,
          s3.emit [Effect.NVIC_EnableIRQ_TIMER0, Effect.NVIC_SetPendingIRQ_TIMESLOT])
  | MPSL_TIMESLOT_SIGNAL_TIMER0 =>
    let s1 := s.emit [Effect.nrf_gpio_pin_write TIMESLOT_OPEN_PIN 0, Effect.TIMER0_TASKS_STOP]
    let s2 := { s1 with mpsl_callback_signal := some MPSL_TIMESLOT_SIGNAL_TIMER0 }
    some (MPSL_TIMESLOT_SIGNAL_ACTION_END, s2.emit [Effect.NVIC_SetPendingIRQ_TIMESLOT])
  | MPSL_TIMESLOT_SIGNAL_RADIO =>
    if s.timeslot_stopping then
      some (MPSL_TIMESLOT_SIGNAL_ACTION_END, s)
    else if TIMESLOT_CALLS_RADIO_IRQHANDLER then
      some (MPSL_TIMESLOT_SIGNAL_ACTION_NONE, s.emit [Effect.RADIO_IRQHandler])
    else
      let s1 := { s with mpsl_callback_signal := some MPSL_TIMESLOT_SIGNAL_RADIO }
      some (MPSL_TIMESLOT_SIGNAL_ACTION_NONE, s1.emit [Effect.NVIC_SetPendingIRQ_TIMESLOT])
  | MPSL_TIMESLOT_SIGNAL_BLOCKED =>
    some (MPSL_TIMESLOT_SIGNAL_ACTION_NONE,
      s.emit [Effect.nrf_gpio_pin_write TIMESLOT_BLOCKED_PIN 1,
              Effect.k_poll_signal_raise SIGNAL_CODE_BLOCKED_CANCELLED])
  | MPSL_TIMESLOT_SIGNAL_CANCELLED =>
    some (MPSL_TIMESLOT_SIGNAL_ACTION_NONE,
      s.emit [Effect.nrf_gpio_pin_write TIMESLOT_CANCELLED_PIN 1,
              Effect.k_poll_signal_raise SIGNAL_CODE_BLOCKED_CANCELLED])
  | MPSL_TIMESLOT_SIGNAL_SESSION_IDLE =>
    some (MPSL_TIMESLOT_SIGNAL_ACTION_NONE, s.emit [Effect.k_poll_signal_raise SIGNAL_CODE_IDLE])
  | MPSL_TIMESLOT_SIGNAL_EXTEND_FAILED
  | MPSL_TIMESLOT_SIGNAL_EXTEND_SUCCEEDED
  | MPSL_TIMESLOT_SIGNAL_INVALID_RETURN
  | MPSL_TIMESLOT_SIGNAL_SESSION_CLOSED =>
    some (MPSL_TIMESLOT_SIGNAL_ACTION_NONE,
      s.emit [Effect.k_poll_signal_raise SIGNAL_CODE_UNEXPECTED])
  | MPSL_TIMESLOT_SIGNAL_OVERSTAYED =>
    some (MPSL_TIMESLOT_SIGNAL_ACTION_NONE,
      s.emit [Effect.k_poll_signal_raise SIGNAL_CODE_OVERSTAYED])

/-- The interrupt handler `radio_notify_cb` (runs in the low-priority timeslot
interrupt, entered by a radio notification or by `NVIC_SetPendingIRQ`). -/
def radio_notify_cb (s : State) : State :=
  if !s.timeslot_started then
    s
  else
    match s.mpsl_callback_signal with
    | some sig =>
      let s1 :=
        match sig with
        | MPSL_TIMESLOT_SIGNAL_START => s.emit [Effect.k_poll_signal_raise SIGNAL_CODE_START]
        | MPSL_TIMESLOT_SIGNAL_RADIO => s.emit [Effect.k_poll_signal_raise SIGNAL_CODE_RADIO]
        | MPSL_TIMESLOT_SIGNAL_TIMER0 => s.emit [Effect.k_poll_signal_raise SIGNAL_CODE_TIMER0]
        | _ => s.emit [Effect.k_poll_signal_raise SIGNAL_CODE_UNEXPECTED]
      { s1 with mpsl_callback_signal := none }
    | none =>
      s.emit [Effect.nrf_gpio_pin_set RADIO_NOTIFICATION_PIN,
              Effect.nrf_gpio_pin_set RADIO_NOTIFICATION_PIN,
              Effect.nrf_gpio_pin_set RADIO_NOTIFICATION_PIN,
              Effect.nrf_gpio_pin_set RADIO_NOTIFICATION_PIN,
              Effect.nrf_gpio_pin_set RADIO_NOTIFICATION_PIN,
              Effect.nrf_gpio_pin_set RADIO_NOTIFICATION_PIN,
              Effect.nrf_gpio_pin_clear RADIO_NOTIFICATION_PIN,
              Effect.k_poll_signal_raise SIGNAL_CODE_RNH_ACTIVE]

/-- The API function `timeslot_stop`: return value and new state. -/
def timeslot_stop (s : State) : Int × State :=
  if !s.session_open || !s.timeslot_started then
    (-TIMESLOT_ERROR_NO_TIMESLOT_STARTED, s)
  else
    (0, { s with timeslot_stopping := true })

/-- The API function `timeslot_start`: return value and new state. -/
def timeslot_start (s : State) (len_us : Nat) : Int × State :=
  if !s.session_open || s.timeslot_started || s.timeslot_stopping then
    (-TIMESLOT_ERROR_TIMESLOT_ALREADY_STARTED, s)
  else
    (0, { s with
            ts_len_us := len_us
            blocked_cancelled_count := 0
            timeslot_started := true
            request_earliest := { s.request_earliest with length_us := len_us } })

/-- The API function `timeslot_open`: return value and new state. -/
def timeslot_open (s : State) (p_config : Option timeslot_config)
    (p_cb : Option timeslot_cb) : Int × State :=
  if s.session_open then
    (-TIMESLOT_ERROR_SESSION_ALREADY_OPENED, s)
  else
    match p_config with
    | none => (-TIMESLOT_ERROR_INVALID_PARAM, s)
    | some config =>
      match p_cb with
      | none => (-TIMESLOT_ERROR_INVALID_PARAM, s)
      | some cb =>
        if cb.error = 0 ∨ cb.start = 0 ∨ cb.end_ = 0 then
          (-TIMESLOT_ERROR_INVALID_PARAM, s)
        else if TIMESLOT_CALLS_RADIO_IRQHANDLER = false ∧ cb.radio_irq = 0 then
          (-TIMESLOT_ERROR_INVALID_PARAM, s)
        else
          let s1 := s.emit [Effect.IRQ_CONNECT_radio_notify_cb, Effect.irq_enable]
          let s2 := { s1 with
                        p_timeslot_config := some config
                        p_timeslot_callbacks := some cb
                        session_open := true
                        request_earliest :=
                          { s1.request_earliest with
                              hfclk := config.hfclk
                              timeout_us := config.timeout_us } }
          (0, s2.emit [Effect.nrf_gpio_cfg_output TIMESLOT_OPEN_PIN,
                       Effect.nrf_gpio_cfg_output TIMESLOT_BLOCKED_PIN,
                       Effect.nrf_gpio_cfg_output TIMESLOT_CANCELLED_PIN,
                       Effect.nrf_gpio_cfg_output RADIO_NOTIFICATION_PIN,
                       Effect.nrf_gpio_cfg_output REQUEST_PIN,
                       Effect.nrf_gpio_pin_clear TIMESLOT_OPEN_PIN,
                       Effect.nrf_gpio_pin_clear TIMESLOT_BLOCKED_PIN,
                       Effect.nrf_gpio_pin_clear TIMESLOT_CANCELLED_PIN,
                       Effect.nrf_gpio_pin_clear RADIO_NOTIFICATION_PIN,
                       Effect.nrf_gpio_pin_clear REQUEST_PIN,
                       Effect.k_poll_signal_raise SIGNAL_CODE_MPSL_START])

/-- The helper `timeslot_stopped`. -/
def timeslot_stopped (s : State) : Option State :=
  let s1 := s.emit [Effect.nrf_gpio_pin_write TIMESLOT_OPEN_PIN 0]
  let s2 := { s1 with timeslot_stopping := false, timeslot_started := false }
  s2.call (fun cb => cb.stopped) Effect.call_stopped

/-- One iteration of the loop of `timeslot_thread_fn`: `result` is the code that
`k_poll` delivered in `events[0].signal->result`. -/
def timeslot_thread_fn (p : Platform) (s : State) (result : SIGNAL_CODE) : Option State :=
  match result with
  | SIGNAL_CODE_START =>
    match s.call (fun cb => cb.start) Effect.call_start with
    | none => none
    | some s1 => some { s1 with blocked_cancelled_count := 0 }
  | SIGNAL_CODE_TIMER0 =>
    s.call (fun cb => cb.end_) Effect.call_end
  | SIGNAL_CODE_RADIO =>
    if TIMESLOT_CALLS_RADIO_IRQHANDLER then
      s.call (fun cb => cb.error) (Effect.call_error (-TIMESLOT_ERROR_INTERNAL))
    else
      s.call (fun cb => cb.radio_irq) Effect.call_radio_irq
  | SIGNAL_CODE_BLOCKED_CANCELLED =>
    let s1 := { s with timeslot_requested := false }
    let s2 := s1.emit [Effect.nrf_gpio_pin_write TIMESLOT_BLOCKED_PIN 0,
                       Effect.nrf_gpio_pin_write TIMESLOT_CANCELLED_PIN 0]
    let s3 := { s2 with blocked_cancelled_count := (s2.blocked_cancelled_count + 1) % 256 }
    match s3.p_timeslot_config with
    | none => none
    | some config =>
      if s3.blocked_cancelled_count > config.skipped_tolerance then
        let s4 := { s3 with blocked_cancelled_count := 0 }
        s4.call (fun cb => cb.error) (Effect.call_error (-TIMESLOT_ERROR_REQUESTS_FAILED))
      else if s3.timeslot_stopping then
        timeslot_stopped s3
      else
        s3.call (fun cb => cb.skipped) (Effect.call_skipped s3.blocked_cancelled_count)
  | SIGNAL_CODE_IDLE =>
    let s1 := { s with timeslot_requested := false }
    if s1.timeslot_stopping then timeslot_stopped s1 else some s1
  | SIGNAL_CODE_OVERSTAYED =>
    s.call (fun cb => cb.error) (Effect.call_error (-TIMESLOT_ERROR_OVERSTAYED))
  | SIGNAL_CODE_UNEXPECTED =>
    s.call (fun cb => cb.error) (Effect.call_error (-TIMESLOT_ERROR_INTERNAL))
  | SIGNAL_CODE_RNH_ACTIVE =>
    if s.timeslot_requested then
      some s
    else
      let s1 := s.emit [Effect.nrf_gpio_pin_write REQUEST_PIN 1,
                        Effect.k_sleep_usec (p.CONFIG_SDC_MAX_CONN_EVENT_LEN_DEFAULT
                          - TS_REQUEST_DELAY_US + TS_RNH_DISTANCE_US),
                        Effect.nrf_gpio_pin_write REQUEST_PIN 0]
      let s2 := { s1 with timeslot_requested := true }
      let s3 := s2.emit [Effect.mpsl_timeslot_request s2.mpsl_session_id s2.request_earliest]
      if p.request_err ≠ 0 then
        s3.call (fun cb => cb.error) (Effect.call_error p.request_err)
      else
        some s3
  | SIGNAL_CODE_MPSL_START =>
    let s1 := s.emit [Effect.mpsl_radio_notification_cfg_set]
    match (if p.cfg_set_err ≠ 0 then
             s1.call (fun cb => cb.error) (Effect.call_error p.cfg_set_err)
           else some s1) with
    | none => none
    | some s2 =>
      let s3 := s2.emit [Effect.mpsl_timeslot_session_open]
      let s4 := { s3 with mpsl_session_id := p.session_id }
      if p.session_open_err ≠ 0 then
        s4.call (fun cb => cb.error) (Effect.call_error p.session_open_err)
      else
        some s4

/-! ## Runs of the worker and of the whole module -/

/-- The worker handling the codes `codes` one after the other. -/
def deliver (p : Platform) (s : State) : List SIGNAL_CODE → Option State
  | [] => some s
  | r :: rs =>
    match timeslot_thread_fn p s r with
    | none => none
    | some s1 => deliver p s1 rs

/-- Whether an outgoing call is a call of a user callback. -/
def Effect.is_callback : Effect → Bool
  | Effect.call_error _ => true
  | Effect.call_start => true
  | Effect.call_end => true
  | Effect.call_radio_irq => true
  | Effect.call_skipped _ => true
  | Effect.call_stopped => true
  | _ => false

/-- The user-callback calls of a trace, in order. -/
def callbacks_of (tr : List Effect) : List Effect :=
  tr.filter Effect.is_callback

/-- The outgoing calls of `n` consecutive blocked/cancelled events that are each
answered by `skipped`, starting from the counter value `c`. -/
def skipped_effects (c : Nat) : Nat → List Effect
  | 0 => []
  | n + 1 =>
    [Effect.nrf_gpio_pin_write TIMESLOT_BLOCKED_PIN 0,
     Effect.nrf_gpio_pin_write TIMESLOT_CANCELLED_PIN 0,
     Effect.call_skipped (c + 1)] ++ skipped_effects (c + 1) n

/-- Anything that can happen to the module: an API call, an MPSL signal, an entry
of the timeslot interrupt, or one iteration of the worker. -/
inductive Action where
  | api_open (p_config : Option timeslot_config) (p_cb : Option timeslot_cb)
  | api_start (len_us : Nat)
  | api_stop
  | mpsl_signal (signal : MPSL_TIMESLOT_SIGNAL)
  | radio_notify
  | worker (p : Platform) (result : SIGNAL_CODE)
deriving DecidableEq, Repr

/-- The state after one action (`none` when the action has no defined result). -/
def step (s : State) : Action → Option State
  | Action.api_open p_config p_cb => some (timeslot_open s p_config p_cb).2
  | Action.api_start len_us => some (timeslot_start s len_us).2
  | Action.api_stop => some (timeslot_stop s).2
  | Action.mpsl_signal signal =>
    match mpsl_cb s signal with
    | none => none
    | some r => some r.2
  | Action.radio_notify => some (radio_notify_cb s)
  | Action.worker p result => timeslot_thread_fn p s result

/-- The state after a sequence of actions. -/
def run (s : State) : List Action → Option State
  | [] => some s
  | a :: as =>
    match step s a with
    | none => none
    | some s1 => run s1 as

/-- The `len_us` argument of the most recent `timeslot_start` call that returned
0 while `acts` ran from `s`; `acc` when there was none. -/
def last_start_len (s : State) (acc : Option Nat) : List Action → Option Nat
  | [] => acc
  | a :: as =>
    match step s a with
    | none => acc
    | some s1 =>
      last_start_len s1
        (match a with
         | Action.api_start len_us => if (timeslot_start s len_us).1 = 0 then some len_us else acc
         | _ => acc) as

/-- The skip-counter invariant: while the session is closed nothing is stored,
the counter is 0 and `skipped` was never called; once a config is stored, the
counter and every argument `skipped` was called with are at most its
`skipped_tolerance`. -/
def SkipInv (s : State) : Prop :=
  (s.session_open = false →
    s.p_timeslot_config = none ∧ s.blocked_cancelled_count = 0 ∧
      ∀ c, Effect.call_skipped c ∉ s.trace) ∧
  (∀ config, s.p_timeslot_config = some config →
    s.blocked_cancelled_count ≤ config.skipped_tolerance ∧
      ∀ c, Effect.call_skipped c ∈ s.trace → c ≤ config.skipped_tolerance)

/-- The open-session invariant: once the session is open, config and callback
table are stored, `error`, `start` and `end` are non-null, and the clock source
and timeout of `request_earliest` are the config's. -/
def OpenInv (s : State) : Prop :=
  s.session_open = true →
    ∃ config cb, s.p_timeslot_config = some config ∧ s.p_timeslot_callbacks = some cb ∧
      cb.error ≠ 0 ∧ cb.start ≠ 0 ∧ cb.end_ ≠ 0 ∧
      s.request_earliest.hfclk = config.hfclk ∧
      s.request_earliest.timeout_us = config.timeout_us

/-- Whether an outgoing call is a call of `mpsl_timeslot_request`. -/
def Effect.is_request : Effect → Bool
  | Effect.mpsl_timeslot_request _ _ => true
  | _ => false

/-- The number of `mpsl_timeslot_request` calls in a trace. -/
def requests_in (tr : List Effect) : Nat :=
  tr.countP Effect.is_request

/-- Whether an action is a worker iteration for `SIGNAL_CODE_BLOCKED_CANCELLED` or
`SIGNAL_CODE_IDLE`, the two cases that clear `timeslot_requested`. -/
def Action.is_boundary : Action → Bool
  | Action.worker _ SIGNAL_CODE_BLOCKED_CANCELLED => true
  | Action.worker _ SIGNAL_CODE_IDLE => true
  | _ => false

/-- The number of blocked/cancelled and idle events the worker handles in a
sequence of actions. -/
def boundaries_in (acts : List Action) : Nat :=
  acts.countP Action.is_boundary

/-- The requests made so far, plus one if the worker would make another one on
the next `SIGNAL_CODE_RNH_ACTIVE`. -/
def request_budget (s : State) : Nat :=
  requests_in s.trace + (if s.timeslot_requested then 0 else 1)

/-! ## Concrete inputs used by the examples -/


/-- A callback table with all five mandatory callbacks (and no `radio_irq`). -/
def sample_cb : timeslot_cb :=
  { error := 1, start := 2, end_ := 3, skipped := 4, stopped := 5, radio_irq := 0 }

/-- A callback table that leaves out `skipped` and `stopped`. -/
def sample_cb_no_skipped_stopped : timeslot_cb :=
  { error := 1, start := 2, end_ := 3, skipped := 0, stopped := 0, radio_irq := 0 }

/-- Platform answers with every MPSL call succeeding. -/
def sample_platform : Platform :=
  { CONFIG_SDC_MAX_CONN_EVENT_LEN_DEFAULT := 7500
    cfg_set_err := 0
    session_open_err := 0
    session_id := 0
    request_err := 0 }

/-- The state after `timeslot_open(&TS_DEFAULT_CONFIG, &sample_cb)` at program start. -/
def opened_state : State :=
  (timeslot_open initial_state (some (TS_DEFAULT_CONFIG 0)) (some sample_cb)).2

/-- The state after a following `timeslot_start(25000)`. -/
def started_state : State :=
  (timeslot_start opened_state 25000).2

/-- The state after a following `timeslot_stop()`. -/
def stopping_state : State :=
  (timeslot_stop started_state).2

/-- The default config with `skipped_tolerance` raised to 255. -/
def config_tolerance_255 : timeslot_config :=
  { hfclk := 0, timeout_us := 2000000, safety_margin_us := 100, skipped_tolerance := 255 }

/-- The state after `timeslot_open(&config_tolerance_255, &sample_cb)` and
`timeslot_start(25000)` at program start. -/
def started_state_255 : State :=
  (timeslot_start
    (timeslot_open initial_state (some config_tolerance_255) (some sample_cb)).2 25000).2

/-- The state after `timeslot_open(&TS_DEFAULT_CONFIG, &sample_cb)`,
`timeslot_start(25000)`, five blocked/cancelled events handled by the worker
(so the counter equals the default tolerance 5) and `timeslot_stop()`. -/
def stopping_state_at_tolerance : State :=
  match deliver sample_platform started_state
      (List.replicate 5 SIGNAL_CODE_BLOCKED_CANCELLED) with
  | some s => (timeslot_stop s).2
  | none => started_state

/-- A config whose safety margin (30000 us) is longer than the 25000 us
timeslot the sample session asks for. -/
def config_margin_30000 : timeslot_config :=
  { hfclk := 0, timeout_us := 2000000, safety_margin_us := 30000, skipped_tolerance := 5 }

/-- The state after `timeslot_open(&config_margin_30000, &sample_cb)` and
`timeslot_start(25000)` at program start. -/
def started_state_margin_30000 : State :=
  (timeslot_start
    (timeslot_open initial_state (some config_margin_30000) (some sample_cb)).2 25000).2

/-- The opened (not started) sample session after the handler has posted
`MPSL_TIMESLOT_SIGNAL_START` in `mpsl_callback_signal`. -/
def posted_not_started_state : State :=
  match mpsl_cb opened_state MPSL_TIMESLOT_SIGNAL_START with
  | some r => r.2
  | none => opened_state

/-- Platform answers with `mpsl_timeslot_request` failing with -22. -/
def rejecting_platform : Platform :=
  { CONFIG_SDC_MAX_CONN_EVENT_LEN_DEFAULT := 7500
    cfg_set_err := 0
    session_open_err := 0
    session_id := 0
    request_err := -22 }

/-- The sample session after `timeslot_start(25000)` and two blocked/cancelled
events handled by the worker. -/
def skipped_twice_state : State :=
  match deliver sample_platform started_state
      [SIGNAL_CODE_BLOCKED_CANCELLED, SIGNAL_CODE_BLOCKED_CANCELLED] with
  | some s => s
  | none => started_state

/-- The sample session after a third blocked/cancelled event. -/
def skipped_thrice_state : State :=
  match timeslot_thread_fn sample_platform skipped_twice_state
      SIGNAL_CODE_BLOCKED_CANCELLED with
  | some s => s
  | none => skipped_twice_state

/-- The sample session after: `timeslot_open`, a start signal handled by
`mpsl_cb` while no timeslot is started, an interrupt entry (which is ignored and
leaves the posted signal in place), `timeslot_start(25000)` and
`timeslot_stop()`. -/
def stale_start_stopping_state : State :=
  (timeslot_stop (timeslot_start (radio_notify_cb posted_not_started_state) 25000).2).2

/-! ## Theorems: the lifecycle API -/

/-- C1: on a session that is already open, `timeslot_open` returns
`-TIMESLOT_ERROR_SESSION_ALREADY_OPENED` (-91) whatever its two arguments are
(null pointers included) and leaves every variable and the trace of outgoing
calls unchanged; in particular nothing is raised on `timeslot_sig`. -/
theorem timeslot_open_already_open (s : State) (p_config : Option timeslot_config)
    (p_cb : Option timeslot_cb) (h : s.session_open = true) :
    timeslot_open s p_config p_cb = (-91, s) := by
  simp [timeslot_open, h, TIMESLOT_ERROR_SESSION_ALREADY_OPENED]

/-- The opened sample session rejects a second `timeslot_open(NULL, NULL)`. -/
theorem timeslot_open_already_open_witness :
    opened_state.session_open = true ∧
      timeslot_open opened_state none none = (-91, opened_state) :=
  ⟨by decide, timeslot_open_already_open opened_state none none (by decide)⟩

/-- What `timeslot_open` checks on a closed session: it returns
`-TIMESLOT_ERROR_INVALID_PARAM` (-88) exactly when the config pointer, the table
pointer or one of `error`, `start`, `end` is null; `skipped` and `stopped` are
not looked at. -/
theorem timeslot_open_closed_invalid_iff (s : State) (p_config : Option timeslot_config)
    (p_cb : Option timeslot_cb) (h : s.session_open = false) :
    (timeslot_open s p_config p_cb).1 = -88 ↔
      (p_config = none ∨ p_cb = none ∨
        ∃ cb, p_cb = some cb ∧ (cb.error = 0 ∨ cb.start = 0 ∨ cb.end_ = 0)) := by
  cases p_config with
  | none => simp [timeslot_open, h, TIMESLOT_ERROR_INVALID_PARAM]
  | some config =>
    cases p_cb with
    | none => simp [timeslot_open, h, TIMESLOT_ERROR_INVALID_PARAM]
    | some cb =>
      by_cases hc : cb.error = 0 ∨ cb.start = 0 ∨ cb.end_ = 0
      · simp [timeslot_open, h, TIMESLOT_ERROR_INVALID_PARAM, hc]
      · simp [timeslot_open, h, TIMESLOT_ERROR_INVALID_PARAM, hc,
          TIMESLOT_CALLS_RADIO_IRQHANDLER]

/-- C2: `timeslot_open` on the closed initial session, with a valid config and a
callback table whose `skipped` and `stopped` pointers are null, returns 0,
stores the table, opens the session and raises `SIGNAL_CODE_MPSL_START`; the
first blocked/cancelled event the worker then handles calls the null
`skipped` pointer. -/
theorem timeslot_open_accepts_null_skipped_stopped :
    (timeslot_open initial_state (some (TS_DEFAULT_CONFIG 0))
        (some sample_cb_no_skipped_stopped)).1 = 0 ∧
    (timeslot_open initial_state (some (TS_DEFAULT_CONFIG 0))
        (some sample_cb_no_skipped_stopped)).2.session_open = true ∧
    (timeslot_open initial_state (some (TS_DEFAULT_CONFIG 0))
        (some sample_cb_no_skipped_stopped)).2.p_timeslot_callbacks
      = some sample_cb_no_skipped_stopped ∧
    Effect.k_poll_signal_raise SIGNAL_CODE_MPSL_START ∈
      (timeslot_open initial_state (some (TS_DEFAULT_CONFIG 0))
        (some sample_cb_no_skipped_stopped)).2.trace ∧
    timeslot_thread_fn sample_platform
      (timeslot_start (timeslot_open initial_state (some (TS_DEFAULT_CONFIG 0))
        (some sample_cb_no_skipped_stopped)).2 25000).2
      SIGNAL_CODE_BLOCKED_CANCELLED = none := by
  decide

/-- C3: `timeslot_start(len_us)` returns
`-TIMESLOT_ERROR_TIMESLOT_ALREADY_STARTED` (-90) and changes nothing unless the
session is open, not started and not stopping; in that case it returns 0 and
changes exactly `ts_len_us` and `request_earliest.length_us` (both to `len_us`),
`blocked_cancelled_count` (to 0) and `timeslot_started` (to true): the flags
`timeslot_requested` and `timeslot_stopping` and the trace of outgoing calls
(so no `mpsl_timeslot_request`) stay as they were. -/
theorem timeslot_start_spec (s : State) (len_us : Nat) :
    (¬ (s.session_open = true ∧ s.timeslot_started = false ∧ s.timeslot_stopping = false) →
      timeslot_start s len_us = (-90, s)) ∧
    (s.session_open = true ∧ s.timeslot_started = false ∧ s.timeslot_stopping = false →
      timeslot_start s len_us =
        (0, { s with
                ts_len_us := len_us
                blocked_cancelled_count := 0
                timeslot_started := true
                request_earliest :=
                  { hfclk := s.request_earliest.hfclk
                    length_us := len_us
                    timeout_us := s.request_earliest.timeout_us } })) := by
  constructor
  · intro h
    cases ho : s.session_open <;> cases hs : s.timeslot_started <;>
      cases hp : s.timeslot_stopping <;>
      simp_all [timeslot_start, TIMESLOT_ERROR_TIMESLOT_ALREADY_STARTED]
  · rintro ⟨ho, hs, hp⟩
    simp [timeslot_start, ho, hs, hp]

/-- Both branches of `timeslot_start` on the sample session: rejected before
`timeslot_open`, accepted after it. -/
theorem timeslot_start_spec_witness :
    timeslot_start initial_state 25000 = (-90, initial_state) ∧
    (timeslot_start opened_state 25000).1 = 0 ∧
    (timeslot_start opened_state 25000).2.ts_len_us = 25000 ∧
    (timeslot_start opened_state 25000).2.request_earliest.length_us = 25000 ∧
    (timeslot_start opened_state 25000).2.timeslot_started = true ∧
    (timeslot_start opened_state 25000).2.trace = opened_state.trace :=
  ⟨(timeslot_start_spec initial_state 25000).1 (by decide),
   by rw [(timeslot_start_spec opened_state 25000).2 (by decide)],
   by rw [(timeslot_start_spec opened_state 25000).2 (by decide)],
   by rw [(timeslot_start_spec opened_state 25000).2 (by decide)],
   by rw [(timeslot_start_spec opened_state 25000).2 (by decide)],
   by rw [(timeslot_start_spec opened_state 25000).2 (by decide)]⟩

/-- C4: `timeslot_stop` returns `-TIMESLOT_ERROR_NO_TIMESLOT_STARTED` (-89) and
changes nothing when the session is not open or no timeslot is started;
otherwise it returns 0 and the only change is `timeslot_stopping = true`:
`timeslot_started`, `blocked_cancelled_count`, `ts_len_us`, `request_earliest`,
`timeslot_requested`, `mpsl_callback_signal` and the trace of outgoing calls (no
callback, no MPSL call) are unchanged. -/
theorem timeslot_stop_spec (s : State) :
    (s.session_open = false ∨ s.timeslot_started = false →
      timeslot_stop s = (-89, s)) ∧
    (s.session_open = true ∧ s.timeslot_started = true →
      timeslot_stop s = (0, { s with timeslot_stopping := true })) := by
  constructor
  · intro h
    cases ho : s.session_open <;> cases hs : s.timeslot_started <;>
      simp_all [timeslot_stop, TIMESLOT_ERROR_NO_TIMESLOT_STARTED]
  · rintro ⟨ho, hs⟩
    simp [timeslot_stop, ho, hs]

/-- Both branches of `timeslot_stop` on the sample session: rejected before
`timeslot_start`, accepted after it. -/
theorem timeslot_stop_spec_witness :
    timeslot_stop opened_state = (-89, opened_state) ∧
    timeslot_stop started_state = (0, { started_state with timeslot_stopping := true }) :=
  ⟨(timeslot_stop_spec opened_state).1 (Or.inr (by decide)),
   (timeslot_stop_spec started_state).2 ⟨by decide, by decide⟩⟩

/-- C5: with an open session and a started timeslot, calling `timeslot_stop`
twice in a row returns 0 both times: the second call is not rejected, because
`timeslot_stop` does not look at `timeslot_stopping`. -/
theorem timeslot_stop_twice_returns_zero :
    started_state.session_open = true ∧ started_state.timeslot_started = true ∧
    (timeslot_stop started_state).1 = 0 ∧
    (timeslot_stop (timeslot_stop started_state).2).1 = 0 ∧
    (timeslot_stop (timeslot_stop started_state).2).2 = (timeslot_stop started_state).2 := by
  decide

/-! ## Theorems: the skip counter -/

theorem call_eq_some (s : State) (fn : timeslot_cb → Nat) (e : Effect) (cb : timeslot_cb)
    (hcb : s.p_timeslot_callbacks = some cb) (hfn : fn cb ≠ 0) :
    s.call fn e = some (s.emit [e]) := by
  simp [State.call, hcb, hfn]

theorem call_some_imp (s s1 : State) (fn : timeslot_cb → Nat) (e : Effect)
    (h : s.call fn e = some s1) : s1 = s.emit [e] := by
  unfold State.call at h
  split at h
  · exact absurd h (by simp)
  · split at h
    · exact absurd h (by simp)
    · exact (Option.some.inj h).symm

/-- A blocked/cancelled event within the tolerance, with no stop pending:
`skipped` is called with the incremented counter. -/
theorem blocked_within_tolerance (p : Platform) (s : State) (config : timeslot_config)
    (cb : timeslot_cb) (hcfg : s.p_timeslot_config = some config)
    (hcb : s.p_timeslot_callbacks = some cb) (hsk : cb.skipped ≠ 0)
    (hstop : s.timeslot_stopping = false)
    (hle : (s.blocked_cancelled_count + 1) % 256 ≤ config.skipped_tolerance) :
    timeslot_thread_fn p s SIGNAL_CODE_BLOCKED_CANCELLED =
      some { s with
               timeslot_requested := false
               blocked_cancelled_count := (s.blocked_cancelled_count + 1) % 256
               trace := s.trace ++
                 [Effect.nrf_gpio_pin_write TIMESLOT_BLOCKED_PIN 0,
                  Effect.nrf_gpio_pin_write TIMESLOT_CANCELLED_PIN 0,
                  Effect.call_skipped ((s.blocked_cancelled_count + 1) % 256)] } := by
  simp [timeslot_thread_fn, State.emit, State.call, hcfg, hcb, hsk, hstop, Nat.not_lt.mpr hle]

/-- A blocked/cancelled event that takes the counter past the tolerance: the
counter is reset and `error(-TIMESLOT_ERROR_REQUESTS_FAILED)` is called, whether
or not a stop is pending. -/
theorem blocked_beyond_tolerance (p : Platform) (s : State) (config : timeslot_config)
    (cb : timeslot_cb) (hcfg : s.p_timeslot_config = some config)
    (hcb : s.p_timeslot_callbacks = some cb) (herr : cb.error ≠ 0)
    (hgt : config.skipped_tolerance < (s.blocked_cancelled_count + 1) % 256) :
    timeslot_thread_fn p s SIGNAL_CODE_BLOCKED_CANCELLED =
      some { s with
               timeslot_requested := false
               blocked_cancelled_count := 0
               trace := s.trace ++
                 [Effect.nrf_gpio_pin_write TIMESLOT_BLOCKED_PIN 0,
                  Effect.nrf_gpio_pin_write TIMESLOT_CANCELLED_PIN 0,
                  Effect.call_error (-94)] } := by
  simp [timeslot_thread_fn, State.emit, State.call, hcfg, hcb, herr, hgt,
    TIMESLOT_ERROR_REQUESTS_FAILED]

theorem callbacks_of_skipped_effects (n : Nat) : ∀ c : Nat,
    callbacks_of (skipped_effects c n) = (List.range' (c + 1) n).map Effect.call_skipped := by
  induction n with
  | zero => intro c; rfl
  | succ n ih =>
    intro c
    have h := ih (c + 1)
    simp only [callbacks_of] at h
    simp [skipped_effects, callbacks_of, List.filter_cons, Effect.is_callback,
      List.range'_succ, h]

theorem deliver_append (p : Platform) (rs1 rs2 : List SIGNAL_CODE) : ∀ s : State,
    deliver p s (rs1 ++ rs2) =
      match deliver p s rs1 with
      | none => none
      | some s1 => deliver p s1 rs2 := by
  induction rs1 with
  | nil => intro s; rfl
  | cons r rs ih =>
    intro s
    simp only [List.cons_append, deliver]
    cases timeslot_thread_fn p s r with
    | none => rfl
    | some s1 => exact ih s1

/-- The worker on `n` consecutive blocked/cancelled events that stay within the
tolerance (no stop pending, counter not wrapping): `skipped` is called `n`
times, with the counter values `c + 1, ..., c + n`. -/
theorem deliver_blocked_within (p : Platform) (n : Nat) :
    ∀ (s : State) (config : timeslot_config) (cb : timeslot_cb),
      s.p_timeslot_config = some config → s.p_timeslot_callbacks = some cb →
      cb.skipped ≠ 0 → s.timeslot_stopping = false →
      s.blocked_cancelled_count + n ≤ config.skipped_tolerance →
      s.blocked_cancelled_count + n ≤ 255 →
      ∃ s1, deliver p s (List.replicate n SIGNAL_CODE_BLOCKED_CANCELLED) = some s1 ∧
        s1.blocked_cancelled_count = s.blocked_cancelled_count + n ∧
        s1.trace = s.trace ++ skipped_effects s.blocked_cancelled_count n ∧
        s1.p_timeslot_config = s.p_timeslot_config ∧
        s1.p_timeslot_callbacks = s.p_timeslot_callbacks ∧
        s1.timeslot_stopping = false ∧
        s1.timeslot_started = s.timeslot_started ∧
        s1.session_open = s.session_open := by
  induction n with
  | zero =>
    intro s config cb _ _ _ hstop _ _
    exact ⟨s, rfl, rfl, by simp [skipped_effects], rfl, rfl, hstop, rfl, rfl⟩
  | succ n ih =>
    intro s config cb hcfg hcb hsk hstop hle h255
    have hmod : (s.blocked_cancelled_count + 1) % 256 = s.blocked_cancelled_count + 1 :=
      Nat.mod_eq_of_lt (by omega)
    have hstep := blocked_within_tolerance p s config cb hcfg hcb hsk hstop (by omega)
    rw [hmod] at hstep
    obtain ⟨s1, h1, h2, h3, h4, h5, h6, h7, h8⟩ :=
      ih { s with
             timeslot_requested := false
             blocked_cancelled_count := s.blocked_cancelled_count + 1
             trace := s.trace ++
               [Effect.nrf_gpio_pin_write TIMESLOT_BLOCKED_PIN 0,
                Effect.nrf_gpio_pin_write TIMESLOT_CANCELLED_PIN 0,
                Effect.call_skipped (s.blocked_cancelled_count + 1)] }
        config cb hcfg hcb hsk hstop
        (by show s.blocked_cancelled_count + 1 + n ≤ _; omega)
        (by show s.blocked_cancelled_count + 1 + n ≤ _; omega)
    refine ⟨s1, ?_, ?_, ?_, h4, h5, h6, h7, h8⟩
    · simp only [List.replicate_succ, deliver, hstep]
      exact h1
    · rw [h2]; show s.blocked_cancelled_count + 1 + n = _; omega
    · rw [h3]; simp [skipped_effects]

/-- The worker on `t + 1` consecutive blocked/cancelled events with
`skipped_tolerance = t` at most 254, counter 0 and no stop pending: `skipped` is
called with 1, ..., t, then `error(-TIMESLOT_ERROR_REQUESTS_FAILED)` once, and
the counter is 0 again. -/
theorem deliver_blocked_tolerance_plus_one (p : Platform) (s : State)
    (config : timeslot_config) (cb : timeslot_cb)
    (hcfg : s.p_timeslot_config = some config) (hcb : s.p_timeslot_callbacks = some cb)
    (hsk : cb.skipped ≠ 0) (herr : cb.error ≠ 0) (hstop : s.timeslot_stopping = false)
    (hcount : s.blocked_cancelled_count = 0) (ht : config.skipped_tolerance ≤ 254) :
    ∃ s1 new, deliver p s
        (List.replicate (config.skipped_tolerance + 1) SIGNAL_CODE_BLOCKED_CANCELLED) = some s1 ∧
      s1.trace = s.trace ++ new ∧
      callbacks_of new =
        (List.range' 1 config.skipped_tolerance).map Effect.call_skipped
          ++ [Effect.call_error (-94)] ∧
      s1.blocked_cancelled_count = 0 := by
  obtain ⟨s1, h1, h2, h3, h4, h5, h6, -, -⟩ :=
    deliver_blocked_within p config.skipped_tolerance s config cb hcfg hcb hsk hstop
      (by omega) (by omega)
  have hgt : config.skipped_tolerance < (s1.blocked_cancelled_count + 1) % 256 := by
    rw [h2, hcount, Nat.mod_eq_of_lt (by omega)]; omega
  have hstep := blocked_beyond_tolerance p s1 config cb (by rw [h4, hcfg]) (by rw [h5, hcb])
    herr hgt
  obtain ⟨s2, hs2⟩ : ∃ s2 : State, s2 = { s1 with
      timeslot_requested := false
      blocked_cancelled_count := 0
      trace := s1.trace ++
        [Effect.nrf_gpio_pin_write TIMESLOT_BLOCKED_PIN 0,
         Effect.nrf_gpio_pin_write TIMESLOT_CANCELLED_PIN 0,
         Effect.call_error (-94)] } := ⟨_, rfl⟩
  rw [← hs2] at hstep
  refine ⟨s2, skipped_effects 0 config.skipped_tolerance ++
      [Effect.nrf_gpio_pin_write TIMESLOT_BLOCKED_PIN 0,
       Effect.nrf_gpio_pin_write TIMESLOT_CANCELLED_PIN 0,
       Effect.call_error (-94)], ?_, ?_, ?_, ?_⟩
  · rw [List.replicate_succ', deliver_append, h1]
    simp only [deliver, hstep]
  · simp [hs2, h3, hcount]
  · have := callbacks_of_skipped_effects config.skipped_tolerance 0
    simp only [callbacks_of] at this
    simp [callbacks_of, List.filter_append, this, List.filter_cons, Effect.is_callback]
  · rw [hs2]

/-- C6: with `skipped_tolerance = 255`, counter 0 and no stop pending, 256
consecutive blocked/cancelled events make the worker call `skipped` 256 times,
with the arguments 1, ..., 255 and then 0 (the 8-bit counter wraps), and
`error` is never called. -/
theorem deliver_blocked_tolerance_255 (p : Platform) :
    started_state_255.blocked_cancelled_count = 0 ∧
    started_state_255.timeslot_stopping = false ∧
    started_state_255.p_timeslot_config = some config_tolerance_255 ∧
    ∃ s1 new, deliver p started_state_255
        (List.replicate 256 SIGNAL_CODE_BLOCKED_CANCELLED) = some s1 ∧
      s1.trace = started_state_255.trace ++ new ∧
      callbacks_of new =
        (List.range' 1 255).map Effect.call_skipped ++ [Effect.call_skipped 0] ∧
      (∀ e, Effect.call_error e ∉ new) ∧
      s1.blocked_cancelled_count = 0 := by
  refine ⟨by decide, by decide, by decide, ?_⟩
  obtain ⟨s1, h1, h2, h3, h4, h5, h6, -, -⟩ :=
    deliver_blocked_within p 255 started_state_255 config_tolerance_255 sample_cb
      (by decide) (by decide) (by decide) (by decide) (by decide) (by decide)
  have hc : s1.blocked_cancelled_count = 255 := by rw [h2]; decide
  have hstep := blocked_within_tolerance p s1 config_tolerance_255 sample_cb
    (by rw [h4]; decide) (by rw [h5]; decide) (by decide) h6
    (by rw [hc]; decide)
  rw [hc] at hstep
  obtain ⟨s2, hs2⟩ : ∃ s2 : State, s2 = { s1 with
      timeslot_requested := false
      blocked_cancelled_count := 0
      trace := s1.trace ++
        [Effect.nrf_gpio_pin_write TIMESLOT_BLOCKED_PIN 0,
         Effect.nrf_gpio_pin_write TIMESLOT_CANCELLED_PIN 0,
         Effect.call_skipped 0] } := ⟨_, rfl⟩
  have hstep2 : timeslot_thread_fn p s1 SIGNAL_CODE_BLOCKED_CANCELLED = some s2 := by
    rw [hstep, hs2]
  refine ⟨s2, skipped_effects 0 255 ++
      [Effect.nrf_gpio_pin_write TIMESLOT_BLOCKED_PIN 0,
       Effect.nrf_gpio_pin_write TIMESLOT_CANCELLED_PIN 0,
       Effect.call_skipped 0], ?_, ?_, ?_, ?_, ?_⟩
  · have : (256 : Nat) = 255 + 1 := rfl
    rw [this, List.replicate_succ', deliver_append, h1]
    simp only [deliver, hstep2]
  · have h0 : started_state_255.blocked_cancelled_count = 0 := by decide
    simp [hs2, h3, h0]
  · have := callbacks_of_skipped_effects 255 0
    simp only [callbacks_of] at this
    simp [callbacks_of, List.filter_append, this, List.filter_cons, Effect.is_callback]
  · intro e he
    have hmem : ∀ (n c : Nat), Effect.call_error e ∉ skipped_effects c n := by
      intro n
      induction n with
      | zero => intro c; simp [skipped_effects]
      | succ n ih => intro c; simp [skipped_effects, ih]
    simp [hmem] at he
  · rw [hs2]

/-! ## Theorems: invariants of all runs -/

theorem skipInv_initial_state : SkipInv initial_state := by
  refine ⟨fun _ => ⟨rfl, rfl, ?_⟩, ?_⟩
  · intro c hc; simp [initial_state] at hc
  · intro config h; simp [initial_state] at h

/-- What one worker iteration can change: never the session flag, the stored
pointers, `ts_len_us` or `request_earliest`; the counter stays, is reset to 0,
or is incremented to a value within the tolerance; every new `skipped` call has
an argument within the tolerance. -/
theorem worker_frame (p : Platform) (s s1 : State) (r : SIGNAL_CODE)
    (h : timeslot_thread_fn p s r = some s1) :
    s1.session_open = s.session_open ∧
    s1.p_timeslot_config = s.p_timeslot_config ∧
    s1.p_timeslot_callbacks = s.p_timeslot_callbacks ∧
    s1.request_earliest = s.request_earliest ∧
    s1.ts_len_us = s.ts_len_us ∧
    (s1.blocked_cancelled_count = s.blocked_cancelled_count ∨
      s1.blocked_cancelled_count = 0 ∨
      ∃ config, s.p_timeslot_config = some config ∧
        s1.blocked_cancelled_count ≤ config.skipped_tolerance) ∧
    (∀ c, Effect.call_skipped c ∈ s1.trace →
      Effect.call_skipped c ∈ s.trace ∨
        ∃ config, s.p_timeslot_config = some config ∧ c ≤ config.skipped_tolerance) := by
  cases r
  case SIGNAL_CODE_START =>
    simp only [timeslot_thread_fn] at h
    cases hc : s.call (fun cb => cb.start) Effect.call_start with
    | none => rw [hc] at h; exact absurd h (by simp)
    | some s2 =>
      rw [hc] at h
      have h2 := call_some_imp _ _ _ _ hc
      subst h2
      have h3 := Option.some.inj h
      subst h3
      simp [State.emit]
      exact fun c hc => Or.inl hc
  case SIGNAL_CODE_MPSL_START =>
    simp only [timeslot_thread_fn, State.call, State.emit] at h
    cases hcb : s.p_timeslot_callbacks with
    | none =>
      by_cases he1 : p.cfg_set_err = 0 <;> by_cases he2 : p.session_open_err = 0 <;>
        simp [hcb, he1, he2] at h
      subst h
      simp [hcb]
      exact fun c hc => Or.inl hc
    | some cb =>
      by_cases hz : cb.error = 0 <;> by_cases he1 : p.cfg_set_err = 0 <;>
        by_cases he2 : p.session_open_err = 0 <;>
        simp [hcb, hz, he1, he2] at h <;>
        (subst h; simp [hcb]; exact fun c hc => Or.inl hc)
  all_goals
    simp only [timeslot_thread_fn, timeslot_stopped, State.call, State.emit] at h
    repeat' split at h
    all_goals first
      | (simp at h; done)
      | (have h2 := Option.some.inj h
         subst h2
         simp_all
         try (intro c hc
              rcases hc with hc | hc
              · exact Or.inl hc
              · exact Or.inr (by omega)))

/-- What the signal handler can change: only `mpsl_callback_signal` and the
trace, and it never calls a user callback. -/
theorem mpsl_cb_frame (s s1 : State) (signal : MPSL_TIMESLOT_SIGNAL) (a : callback_action)
    (h : mpsl_cb s signal = some (a, s1)) :
    s1.session_open = s.session_open ∧
    s1.p_timeslot_config = s.p_timeslot_config ∧
    s1.p_timeslot_callbacks = s.p_timeslot_callbacks ∧
    s1.request_earliest = s.request_earliest ∧
    s1.ts_len_us = s.ts_len_us ∧
    s1.blocked_cancelled_count = s.blocked_cancelled_count ∧
    (∀ c, Effect.call_skipped c ∈ s1.trace → Effect.call_skipped c ∈ s.trace) := by
  cases signal <;> simp only [mpsl_cb, State.emit] at h <;> (repeat' split at h)
  all_goals first
    | (simp at h; done)
    | (have h2 := Option.some.inj h
       have h3 := (Prod.mk.inj h2).2
       subst h3
       simp)

/-- What the timeslot interrupt can change: only `mpsl_callback_signal` and the
trace, and it never calls a user callback. -/
theorem radio_notify_cb_frame (s : State) :
    (radio_notify_cb s).session_open = s.session_open ∧
    (radio_notify_cb s).p_timeslot_config = s.p_timeslot_config ∧
    (radio_notify_cb s).p_timeslot_callbacks = s.p_timeslot_callbacks ∧
    (radio_notify_cb s).request_earliest = s.request_earliest ∧
    (radio_notify_cb s).ts_len_us = s.ts_len_us ∧
    (radio_notify_cb s).blocked_cancelled_count = s.blocked_cancelled_count ∧
    (∀ c, Effect.call_skipped c ∈ (radio_notify_cb s).trace →
      Effect.call_skipped c ∈ s.trace) := by
  unfold radio_notify_cb
  split
  · simp
  · split
    · split <;> simp [State.emit]
    · simp [State.emit]

theorem skipInv_of_frame (s s1 : State) (hinv : SkipInv s)
    (ho : s1.session_open = s.session_open)
    (hc : s1.p_timeslot_config = s.p_timeslot_config)
    (hcount : s1.blocked_cancelled_count = s.blocked_cancelled_count ∨
      s1.blocked_cancelled_count = 0 ∨
      ∃ config, s.p_timeslot_config = some config ∧
        s1.blocked_cancelled_count ≤ config.skipped_tolerance)
    (htr : ∀ c, Effect.call_skipped c ∈ s1.trace →
      Effect.call_skipped c ∈ s.trace ∨
        ∃ config, s.p_timeslot_config = some config ∧ c ≤ config.skipped_tolerance) :
    SkipInv s1 := by
  obtain ⟨hclosed, hcfg⟩ := hinv
  constructor
  · intro h1
    obtain ⟨hn, h0, htr0⟩ := hclosed (ho ▸ h1)
    refine ⟨hc.trans hn, ?_, ?_⟩
    · rcases hcount with h | h | ⟨config, h, _⟩
      · rw [h, h0]
      · exact h
      · rw [hn] at h; exact absurd h (by simp)
    · intro c hmem
      rcases htr c hmem with h | ⟨config, h, _⟩
      · exact htr0 c h
      · rw [hn] at h; exact absurd h (by simp)
  · intro config h1
    rw [hc] at h1
    obtain ⟨hle, htr1⟩ := hcfg config h1
    constructor
    · rcases hcount with h | h | ⟨config2, h, h2⟩
      · rw [h]; exact hle
      · rw [h]; exact Nat.zero_le _
      · rw [h1] at h
        cases h
        exact h2
    · intro c hmem
      rcases htr c hmem with h | ⟨config2, h, h2⟩
      · exact htr1 c h
      · rw [h1] at h
        cases h
        exact h2

theorem timeslot_open_skipInv (s : State) (p_config : Option timeslot_config)
    (p_cb : Option timeslot_cb) (hinv : SkipInv s) :
    SkipInv (timeslot_open s p_config p_cb).2 ∧
      ∀ config, s.p_timeslot_config = some config →
        (timeslot_open s p_config p_cb).2.p_timeslot_config = some config := by
  unfold timeslot_open
  split
  · exact ⟨hinv, fun _ h => h⟩
  · rename_i hopen
    split
    · exact ⟨hinv, fun _ h => h⟩
    · split
      · exact ⟨hinv, fun _ h => h⟩
      · split
        · exact ⟨hinv, fun _ h => h⟩
        · split
          · exact ⟨hinv, fun _ h => h⟩
          · obtain ⟨hn, h0, htr0⟩ := hinv.1 (by simpa using hopen)
            refine ⟨⟨?_, ?_⟩, ?_⟩
            · intro h; simp [State.emit] at h
            · intro config h
              simp only [State.emit] at h ⊢
              refine ⟨by rw [h0]; exact Nat.zero_le _, ?_⟩
              intro c hmem
              simp at hmem
              exact absurd hmem (htr0 c)
            · intro config h
              rw [hn] at h
              exact absurd h (by simp)

/-- One action keeps the skip-counter invariant and never replaces a stored
config. -/
theorem step_skipInv (s s1 : State) (a : Action) (hinv : SkipInv s)
    (h : step s a = some s1) :
    SkipInv s1 ∧ ∀ config, s.p_timeslot_config = some config →
      s1.p_timeslot_config = some config := by
  cases a with
  | api_open p_config p_cb =>
    have h1 := Option.some.inj h
    subst h1
    exact timeslot_open_skipInv s p_config p_cb hinv
  | api_start len_us =>
    have h1 := Option.some.inj h
    subst h1
    unfold timeslot_start
    split
    · exact ⟨hinv, fun _ h => h⟩
    · exact ⟨skipInv_of_frame s _ hinv rfl rfl (Or.inr (Or.inl rfl)) (fun c hc => Or.inl hc),
        fun _ h => h⟩
  | api_stop =>
    have h1 := Option.some.inj h
    subst h1
    unfold timeslot_stop
    split
    · exact ⟨hinv, fun _ h => h⟩
    · exact ⟨skipInv_of_frame s _ hinv rfl rfl (Or.inl rfl) (fun c hc => Or.inl hc),
        fun _ h => h⟩
  | mpsl_signal signal =>
    simp only [step] at h
    cases hm : mpsl_cb s signal with
    | none => rw [hm] at h; exact absurd h (by simp)
    | some r =>
      rw [hm] at h
      have h1 := Option.some.inj h
      subst h1
      obtain ⟨f1, f2, -, -, -, f6, f7⟩ := mpsl_cb_frame s r.2 signal r.1 hm
      exact ⟨skipInv_of_frame s _ hinv f1 f2 (Or.inl f6) (fun c hc => Or.inl (f7 c hc)),
        fun _ h => f2.trans h⟩
  | radio_notify =>
    have h1 := Option.some.inj h
    subst h1
    obtain ⟨f1, f2, -, -, -, f6, f7⟩ := radio_notify_cb_frame s
    exact ⟨skipInv_of_frame s _ hinv f1 f2 (Or.inl f6) (fun c hc => Or.inl (f7 c hc)),
      fun _ h => f2.trans h⟩
  | worker p result =>
    obtain ⟨f1, f2, -, -, -, f6, f7⟩ := worker_frame p s s1 result h
    exact ⟨skipInv_of_frame s s1 hinv f1 f2 f6 f7, fun _ h => f2.trans h⟩

theorem run_skipInv (acts : List Action) : ∀ (s s1 : State), SkipInv s →
    run s acts = some s1 →
    SkipInv s1 ∧ ∀ config, s.p_timeslot_config = some config →
      s1.p_timeslot_config = some config := by
  induction acts with
  | nil =>
    intro s s1 hinv h
    have h1 := Option.some.inj h
    subst h1
    exact ⟨hinv, fun _ h => h⟩
  | cons a as ih =>
    intro s s1 hinv h
    simp only [run] at h
    cases hs : step s a with
    | none => rw [hs] at h; exact absurd h (by simp)
    | some s2 =>
      rw [hs] at h
      obtain ⟨h1, h2⟩ := step_skipInv s s2 a hinv hs
      obtain ⟨h3, h4⟩ := ih s2 s1 h1 h
      exact ⟨h3, fun config hc => h4 config (h2 config hc)⟩

theorem openInv_initial_state : OpenInv initial_state := by
  intro h; simp [initial_state] at h

theorem openInv_of_frame (s s1 : State) (hinv : OpenInv s)
    (ho : s1.session_open = s.session_open)
    (hc : s1.p_timeslot_config = s.p_timeslot_config)
    (hcb : s1.p_timeslot_callbacks = s.p_timeslot_callbacks)
    (hh : s1.request_earliest.hfclk = s.request_earliest.hfclk)
    (ht : s1.request_earliest.timeout_us = s.request_earliest.timeout_us) :
    OpenInv s1 := by
  intro h
  obtain ⟨config, cb, h1, h2, h3, h4, h5, h6, h7⟩ := hinv (ho ▸ h)
  exact ⟨config, cb, hc.trans h1, hcb.trans h2, h3, h4, h5, hh.trans h6, ht.trans h7⟩

theorem timeslot_open_openInv (s : State) (p_config : Option timeslot_config)
    (p_cb : Option timeslot_cb) (hinv : OpenInv s) :
    OpenInv (timeslot_open s p_config p_cb).2 := by
  unfold timeslot_open
  split
  · exact hinv
  · split
    · exact hinv
    · split
      · exact hinv
      · split
        · exact hinv
        · split
          · exact hinv
          · rename_i config _ cb hcb _
            intro _
            have hcb2 : cb.error ≠ 0 ∧ cb.start ≠ 0 ∧ cb.end_ ≠ 0 := by
              refine ⟨fun h => hcb (Or.inl h), fun h => hcb (Or.inr (Or.inl h)),
                fun h => hcb (Or.inr (Or.inr h))⟩
            exact ⟨config, cb, rfl, rfl, hcb2.1, hcb2.2.1, hcb2.2.2, rfl, rfl⟩

/-- One action keeps the open-session invariant. -/
theorem step_openInv (s s1 : State) (a : Action) (hinv : OpenInv s)
    (h : step s a = some s1) : OpenInv s1 := by
  cases a with
  | api_open p_config p_cb =>
    have h1 := Option.some.inj h
    subst h1
    exact timeslot_open_openInv s p_config p_cb hinv
  | api_start len_us =>
    have h1 := Option.some.inj h
    subst h1
    unfold timeslot_start
    split
    · exact hinv
    · exact openInv_of_frame s _ hinv rfl rfl rfl rfl rfl
  | api_stop =>
    have h1 := Option.some.inj h
    subst h1
    unfold timeslot_stop
    split
    · exact hinv
    · exact openInv_of_frame s _ hinv rfl rfl rfl rfl rfl
  | mpsl_signal signal =>
    simp only [step] at h
    cases hm : mpsl_cb s signal with
    | none => rw [hm] at h; exact absurd h (by simp)
    | some r =>
      rw [hm] at h
      have h1 := Option.some.inj h
      subst h1
      obtain ⟨f1, f2, f3, f4, -, -, -⟩ := mpsl_cb_frame s r.2 signal r.1 hm
      exact openInv_of_frame s _ hinv f1 f2 f3 (by rw [f4]) (by rw [f4])
  | radio_notify =>
    have h1 := Option.some.inj h
    subst h1
    obtain ⟨f1, f2, f3, f4, -, -, -⟩ := radio_notify_cb_frame s
    exact openInv_of_frame s _ hinv f1 f2 f3 (by rw [f4]) (by rw [f4])
  | worker p result =>
    obtain ⟨f1, f2, f3, f4, -, -, -⟩ := worker_frame p s s1 result h
    exact openInv_of_frame s s1 hinv f1 f2 f3 (by rw [f4]) (by rw [f4])

theorem run_openInv (acts : List Action) : ∀ (s s1 : State), OpenInv s →
    run s acts = some s1 → OpenInv s1 := by
  induction acts with
  | nil =>
    intro s s1 hinv h
    have h1 := Option.some.inj h
    subst h1
    exact hinv
  | cons a as ih =>
    intro s s1 hinv h
    simp only [run] at h
    cases hs : step s a with
    | none => rw [hs] at h; exact absurd h (by simp)
    | some s2 =>
      rw [hs] at h
      exact ih s2 s1 (step_openInv s s2 a hinv hs) h

/-- C7: in every run of API calls, MPSL signals, interrupt entries and worker
iterations from the initial state, after every step: once a config is stored
(which `timeslot_open` does, and no later step replaces it),
`blocked_cancelled_count` is at most its `skipped_tolerance` and every
`skipped(c)` call made so far has `c` at most `skipped_tolerance`; before that
the session is closed, the counter is 0 and `skipped` has not been called. -/
theorem skip_count_within_tolerance (acts1 acts2 : List Action) (s1 s2 : State)
    (h1 : run initial_state acts1 = some s1) (h2 : run s1 acts2 = some s2) :
    (s1.p_timeslot_config = none →
      s1.session_open = false ∧ s1.blocked_cancelled_count = 0 ∧
        ∀ c, Effect.call_skipped c ∉ s1.trace) ∧
    (∀ config, s1.p_timeslot_config = some config →
      s1.blocked_cancelled_count ≤ config.skipped_tolerance ∧
      (∀ c, Effect.call_skipped c ∈ s1.trace → c ≤ config.skipped_tolerance) ∧
      s2.p_timeslot_config = some config ∧
      s2.blocked_cancelled_count ≤ config.skipped_tolerance ∧
      (∀ c, Effect.call_skipped c ∈ s2.trace → c ≤ config.skipped_tolerance)) := by
  obtain ⟨hinv1, -⟩ := run_skipInv acts1 initial_state s1 skipInv_initial_state h1
  obtain ⟨hinv2, hfix⟩ := run_skipInv acts2 s1 s2 hinv1 h2
  constructor
  · intro hn
    cases ho : s1.session_open with
    | false => exact ⟨rfl, (hinv1.1 ho).2⟩
    | true =>
      obtain ⟨config, -, hc, -⟩ :=
        run_openInv acts1 initial_state s1 openInv_initial_state h1 ho
      rw [hn] at hc
      exact absurd hc (by simp)
  · intro config hc
    have hc2 := hfix config hc
    exact ⟨(hinv1.2 config hc).1, (hinv1.2 config hc).2, hc2, (hinv2.2 config hc2).1,
      (hinv2.2 config hc2).2⟩

/-- The invariant on a run of the sample session in which the worker handles
blocked/cancelled events: after open, start and two such events the counter is 2
and `skipped(1)`, `skipped(2)` were called; after a third event the counter is 3
and `skipped(3)` was called; all of these are within the tolerance 5. -/
theorem skip_count_within_tolerance_witness :
    run initial_state
      [Action.api_open (some (TS_DEFAULT_CONFIG 0)) (some sample_cb), Action.api_start 25000,
       Action.worker sample_platform SIGNAL_CODE_BLOCKED_CANCELLED,
       Action.worker sample_platform SIGNAL_CODE_BLOCKED_CANCELLED]
      = some skipped_twice_state ∧
    run skipped_twice_state [Action.worker sample_platform SIGNAL_CODE_BLOCKED_CANCELLED]
      = some skipped_thrice_state ∧
    skipped_twice_state.blocked_cancelled_count = 2 ∧
    skipped_thrice_state.blocked_cancelled_count = 3 ∧
    Effect.call_skipped 2 ∈ skipped_twice_state.trace ∧
    Effect.call_skipped 3 ∈ skipped_thrice_state.trace ∧
    skipped_twice_state.blocked_cancelled_count ≤ (TS_DEFAULT_CONFIG 0).skipped_tolerance ∧
    2 ≤ (TS_DEFAULT_CONFIG 0).skipped_tolerance ∧
    skipped_thrice_state.p_timeslot_config = some (TS_DEFAULT_CONFIG 0) ∧
    skipped_thrice_state.blocked_cancelled_count ≤ (TS_DEFAULT_CONFIG 0).skipped_tolerance ∧
    3 ≤ (TS_DEFAULT_CONFIG 0).skipped_tolerance :=
  ⟨by decide, by decide, by decide, by decide, by decide, by decide,
   ((skip_count_within_tolerance
      [Action.api_open (some (TS_DEFAULT_CONFIG 0)) (some sample_cb), Action.api_start 25000,
       Action.worker sample_platform SIGNAL_CODE_BLOCKED_CANCELLED,
       Action.worker sample_platform SIGNAL_CODE_BLOCKED_CANCELLED]
      [Action.worker sample_platform SIGNAL_CODE_BLOCKED_CANCELLED]
      skipped_twice_state skipped_thrice_state (by decide) (by decide)).2
        (TS_DEFAULT_CONFIG 0) (by decide)).1,
   ((skip_count_within_tolerance
      [Action.api_open (some (TS_DEFAULT_CONFIG 0)) (some sample_cb), Action.api_start 25000,
       Action.worker sample_platform SIGNAL_CODE_BLOCKED_CANCELLED,
       Action.worker sample_platform SIGNAL_CODE_BLOCKED_CANCELLED]
      [Action.worker sample_platform SIGNAL_CODE_BLOCKED_CANCELLED]
      skipped_twice_state skipped_thrice_state (by decide) (by decide)).2
        (TS_DEFAULT_CONFIG 0) (by decide)).2.1 2 (by decide),
   ((skip_count_within_tolerance
      [Action.api_open (some (TS_DEFAULT_CONFIG 0)) (some sample_cb), Action.api_start 25000,
       Action.worker sample_platform SIGNAL_CODE_BLOCKED_CANCELLED,
       Action.worker sample_platform SIGNAL_CODE_BLOCKED_CANCELLED]
      [Action.worker sample_platform SIGNAL_CODE_BLOCKED_CANCELLED]
      skipped_twice_state skipped_thrice_state (by decide) (by decide)).2
        (TS_DEFAULT_CONFIG 0) (by decide)).2.2.1,
   ((skip_count_within_tolerance
      [Action.api_open (some (TS_DEFAULT_CONFIG 0)) (some sample_cb), Action.api_start 25000,
       Action.worker sample_platform SIGNAL_CODE_BLOCKED_CANCELLED,
       Action.worker sample_platform SIGNAL_CODE_BLOCKED_CANCELLED]
      [Action.worker sample_platform SIGNAL_CODE_BLOCKED_CANCELLED]
      skipped_twice_state skipped_thrice_state (by decide) (by decide)).2
        (TS_DEFAULT_CONFIG 0) (by decide)).2.2.2.1,
   ((skip_count_within_tolerance
      [Action.api_open (some (TS_DEFAULT_CONFIG 0)) (some sample_cb), Action.api_start 25000,
       Action.worker sample_platform SIGNAL_CODE_BLOCKED_CANCELLED,
       Action.worker sample_platform SIGNAL_CODE_BLOCKED_CANCELLED]
      [Action.worker sample_platform SIGNAL_CODE_BLOCKED_CANCELLED]
      skipped_twice_state skipped_thrice_state (by decide) (by decide)).2
        (TS_DEFAULT_CONFIG 0) (by decide)).2.2.2.2 3 (by decide)⟩

/-! ## Theorems: requests -/

theorem timeslot_start_length (s : State) (len_us : Nat) :
    ((timeslot_start s len_us).1 = 0 →
      (timeslot_start s len_us).2.request_earliest.length_us = len_us ∧
      (timeslot_start s len_us).2.ts_len_us = len_us) ∧
    ((timeslot_start s len_us).1 ≠ 0 → (timeslot_start s len_us).2 = s) := by
  unfold timeslot_start
  split
  · simp [TIMESLOT_ERROR_TIMESLOT_ALREADY_STARTED]
  · simp

theorem timeslot_open_length (s : State) (p_config : Option timeslot_config)
    (p_cb : Option timeslot_cb) :
    (timeslot_open s p_config p_cb).2.request_earliest.length_us
      = s.request_earliest.length_us ∧
    (timeslot_open s p_config p_cb).2.ts_len_us = s.ts_len_us := by
  unfold timeslot_open
  repeat' split
  all_goals simp [State.emit]

/-- Only a `timeslot_start` call that returns 0 writes `ts_len_us` and
`request_earliest.length_us`. -/
theorem step_length (s s1 : State) (a : Action) (h : step s a = some s1)
    (hns : ∀ len_us, a = Action.api_start len_us → (timeslot_start s len_us).1 ≠ 0) :
    s1.request_earliest.length_us = s.request_earliest.length_us ∧
    s1.ts_len_us = s.ts_len_us := by
  cases a with
  | api_open p_config p_cb =>
    have h1 := Option.some.inj h
    subst h1
    exact timeslot_open_length s p_config p_cb
  | api_start len_us =>
    have h1 := Option.some.inj h
    subst h1
    rw [(timeslot_start_length s len_us).2 (hns len_us rfl)]
    exact ⟨rfl, rfl⟩
  | api_stop =>
    have h1 := Option.some.inj h
    subst h1
    unfold timeslot_stop
    split <;> exact ⟨rfl, rfl⟩
  | mpsl_signal signal =>
    simp only [step] at h
    cases hm : mpsl_cb s signal with
    | none => rw [hm] at h; exact absurd h (by simp)
    | some r =>
      rw [hm] at h
      have h1 := Option.some.inj h
      subst h1
      obtain ⟨-, -, -, f4, f5, -, -⟩ := mpsl_cb_frame s r.2 signal r.1 hm
      exact ⟨by rw [f4], f5⟩
  | radio_notify =>
    have h1 := Option.some.inj h
    subst h1
    obtain ⟨-, -, -, f4, f5, -, -⟩ := radio_notify_cb_frame s
    exact ⟨by rw [f4], f5⟩
  | worker p result =>
    obtain ⟨-, -, -, f4, f5, -, -⟩ := worker_frame p s s1 result h
    exact ⟨by rw [f4], f5⟩

/-- At the end of a run, `request_earliest.length_us` and `ts_len_us` hold the
`len_us` of the most recent `timeslot_start` call that returned 0. -/
theorem run_length (acts : List Action) : ∀ (s s1 : State) (acc : Option Nat),
    (∀ len, acc = some len →
      s.request_earliest.length_us = len ∧ s.ts_len_us = len) →
    run s acts = some s1 →
    ∀ len, last_start_len s acc acts = some len →
      s1.request_earliest.length_us = len ∧ s1.ts_len_us = len := by
  induction acts with
  | nil =>
    intro s s1 acc hacc h len hl
    have h1 := Option.some.inj h
    subst h1
    exact hacc len hl
  | cons a as ih =>
    intro s s1 acc hacc h len hl
    simp only [run] at h
    simp only [last_start_len] at hl
    cases hs : step s a with
    | none => rw [hs] at h; exact absurd h (by simp)
    | some s2 =>
      rw [hs] at h hl
      refine ih s2 s1 _ ?_ h len hl
      intro len2 hacc2
      cases a with
      | api_start len_us =>
        have h1 := Option.some.inj hs
        subst h1
        by_cases h0 : (timeslot_start s len_us).1 = 0
        · simp only [h0, if_true] at hacc2
          have h2 := Option.some.inj hacc2
          subst h2
          exact (timeslot_start_length s len_us).1 h0
        · simp only [h0, if_false] at hacc2
          rw [(timeslot_start_length s len_us).2 h0]
          exact hacc len2 hacc2
      | api_open p_config p_cb =>
        obtain ⟨f1, f2⟩ := step_length s s2 _ hs (by intro l hl2; cases hl2)
        rw [f1, f2]; exact hacc len2 hacc2
      | api_stop =>
        obtain ⟨f1, f2⟩ := step_length s s2 _ hs (by intro l hl2; cases hl2)
        rw [f1, f2]; exact hacc len2 hacc2
      | mpsl_signal signal =>
        obtain ⟨f1, f2⟩ := step_length s s2 _ hs (by intro l hl2; cases hl2)
        rw [f1, f2]; exact hacc len2 hacc2
      | radio_notify =>
        obtain ⟨f1, f2⟩ := step_length s s2 _ hs (by intro l hl2; cases hl2)
        rw [f1, f2]; exact hacc len2 hacc2
      | worker p result =>
        obtain ⟨f1, f2⟩ := step_length s s2 _ hs (by intro l hl2; cases hl2)
        rw [f1, f2]; exact hacc len2 hacc2

/-- C8: the worker on `SIGNAL_CODE_RNH_ACTIVE`.  If `timeslot_requested` is
true the state, trace of outgoing calls included, is unchanged (no MPSL call, no
callback).  If it is false, in any state of an open session reached by a run
from the initial state, the worker sets `timeslot_requested` and calls
`mpsl_timeslot_request` exactly once, with the static `request_earliest` (after
the request delay, and followed by `error(err)` only if the MPSL returns a
non-zero `err`); the request's `length_us` is the `len_us` of the most recent
`timeslot_start` that returned 0, and its `hfclk` and `timeout_us` are those of
the stored config. -/
theorem rnh_active_spec (p : Platform) :
    (∀ s : State, s.timeslot_requested = true →
      timeslot_thread_fn p s SIGNAL_CODE_RNH_ACTIVE = some s) ∧
    (∀ (acts : List Action) (s : State), run initial_state acts = some s →
      s.session_open = true → s.timeslot_requested = false →
      timeslot_thread_fn p s SIGNAL_CODE_RNH_ACTIVE =
        some { s with
                 timeslot_requested := true
                 trace := s.trace ++
                   [Effect.nrf_gpio_pin_write REQUEST_PIN 1,
                    Effect.k_sleep_usec (p.CONFIG_SDC_MAX_CONN_EVENT_LEN_DEFAULT - 2600 + 800),
                    Effect.nrf_gpio_pin_write REQUEST_PIN 0,
                    Effect.mpsl_timeslot_request s.mpsl_session_id s.request_earliest] ++
                   (if p.request_err = 0 then [] else [Effect.call_error p.request_err]) } ∧
      (∀ len_us, last_start_len initial_state none acts = some len_us →
        s.request_earliest.length_us = len_us) ∧
      (∃ config, s.p_timeslot_config = some config ∧
        s.request_earliest.hfclk = config.hfclk ∧
        s.request_earliest.timeout_us = config.timeout_us)) := by
  constructor
  · intro s h
    simp [timeslot_thread_fn, h]
  · intro acts s hrun hopen hreq
    obtain ⟨config, cb, h1, h2, h3, -, -, h6, h7⟩ :=
      run_openInv acts initial_state s openInv_initial_state hrun hopen
    refine ⟨?_, ?_, ⟨config, h1, h6, h7⟩⟩
    · by_cases he : p.request_err = 0
      · simp [timeslot_thread_fn, hreq, he, State.emit, TS_REQUEST_DELAY_US, TS_RNH_DISTANCE_US]
      · simp [timeslot_thread_fn, hreq, he, State.emit, State.call, h2, h3,
          TS_REQUEST_DELAY_US, TS_RNH_DISTANCE_US]
    · intro len_us hl
      exact (run_length acts initial_state s none (by intro l hl2; cases hl2) hrun len_us hl).1

/-- The sample session after `timeslot_start(25000)`: a radio notification with
a request outstanding changes nothing, and the pending request is 25000 us long. -/
theorem rnh_active_spec_witness :
    timeslot_thread_fn sample_platform { started_state with timeslot_requested := true }
        SIGNAL_CODE_RNH_ACTIVE = some { started_state with timeslot_requested := true } ∧
    started_state.request_earliest.length_us = 25000 :=
  ⟨(rnh_active_spec sample_platform).1 _ rfl,
   ((rnh_active_spec sample_platform).2
      [Action.api_open (some (TS_DEFAULT_CONFIG 0)) (some sample_cb), Action.api_start 25000]
      started_state rfl (by decide) (by decide)).2.1 25000 (by decide)⟩

/-! ## Theorems: stopping -/

/-- C9, as stated, fails: with the default config, after five skipped
timeslots and a `timeslot_stop()` that returned 0, the next blocked/cancelled
event takes the counter past the tolerance; the worker calls
`error(-TIMESLOT_ERROR_REQUESTS_FAILED)`, not `stopped`, both flags stay set and
a following `timeslot_start` returns `-TIMESLOT_ERROR_TIMESLOT_ALREADY_STARTED`. -/
theorem stop_pending_beyond_tolerance :
    stopping_state_at_tolerance.timeslot_started = true ∧
    stopping_state_at_tolerance.timeslot_stopping = true ∧
    stopping_state_at_tolerance.blocked_cancelled_count = 5 ∧
    stopping_state_at_tolerance.p_timeslot_config = some (TS_DEFAULT_CONFIG 0) ∧
    timeslot_thread_fn sample_platform stopping_state_at_tolerance
        SIGNAL_CODE_BLOCKED_CANCELLED =
      some { stopping_state_at_tolerance with
               timeslot_requested := false
               blocked_cancelled_count := 0
               trace := stopping_state_at_tolerance.trace ++
                 [Effect.nrf_gpio_pin_write TIMESLOT_BLOCKED_PIN 0,
                  Effect.nrf_gpio_pin_write TIMESLOT_CANCELLED_PIN 0,
                  Effect.call_error (-94)] } ∧
    (timeslot_start
      { stopping_state_at_tolerance with
          timeslot_requested := false
          blocked_cancelled_count := 0
          trace := stopping_state_at_tolerance.trace ++
            [Effect.nrf_gpio_pin_write TIMESLOT_BLOCKED_PIN 0,
             Effect.nrf_gpio_pin_write TIMESLOT_CANCELLED_PIN 0,
             Effect.call_error (-94)] } 25000).1 = -90 := by
  decide

/-- C9 (amended): in a state with an open session, a stop pending (hence a
started timeslot) and a non-null `stopped` callback, the worker finalises the
stop on the next `SIGNAL_CODE_IDLE`, and on the next `SIGNAL_CODE_BLOCKED_CANCELLED` whose
incremented 8-bit counter does not exceed `skipped_tolerance`: it calls `stopped`
once and no other callback, clears `timeslot_stopping` and `timeslot_started`,
and a following `timeslot_start` returns 0.  A blocked/cancelled event that
takes the counter past the tolerance instead resets the counter and calls
`error(-TIMESLOT_ERROR_REQUESTS_FAILED)`; the stop stays pending. -/
theorem stop_finalised_at_boundary (p : Platform) (s : State) (cb : timeslot_cb)
    (hopen : s.session_open = true) (hstopping : s.timeslot_stopping = true)
    (hcb : s.p_timeslot_callbacks = some cb) (hstopped : cb.stopped ≠ 0) :
    timeslot_thread_fn p s SIGNAL_CODE_IDLE =
      some { s with
               timeslot_requested := false
               timeslot_stopping := false
               timeslot_started := false
               trace := s.trace ++
                 [Effect.nrf_gpio_pin_write TIMESLOT_OPEN_PIN 0, Effect.call_stopped] } ∧
    (∀ config, s.p_timeslot_config = some config →
      (s.blocked_cancelled_count + 1) % 256 ≤ config.skipped_tolerance →
      timeslot_thread_fn p s SIGNAL_CODE_BLOCKED_CANCELLED =
        some { s with
                 timeslot_requested := false
                 blocked_cancelled_count := (s.blocked_cancelled_count + 1) % 256
                 timeslot_stopping := false
                 timeslot_started := false
                 trace := s.trace ++
                   [Effect.nrf_gpio_pin_write TIMESLOT_BLOCKED_PIN 0,
                    Effect.nrf_gpio_pin_write TIMESLOT_CANCELLED_PIN 0,
                    Effect.nrf_gpio_pin_write TIMESLOT_OPEN_PIN 0,
                    Effect.call_stopped] }) ∧
    (∀ config, s.p_timeslot_config = some config →
      config.skipped_tolerance < (s.blocked_cancelled_count + 1) % 256 → cb.error ≠ 0 →
      timeslot_thread_fn p s SIGNAL_CODE_BLOCKED_CANCELLED =
        some { s with
                 timeslot_requested := false
                 blocked_cancelled_count := 0
                 trace := s.trace ++
                   [Effect.nrf_gpio_pin_write TIMESLOT_BLOCKED_PIN 0,
                    Effect.nrf_gpio_pin_write TIMESLOT_CANCELLED_PIN 0,
                    Effect.call_error (-94)] }) ∧
    (∀ s1, (timeslot_thread_fn p s SIGNAL_CODE_IDLE = some s1 ∨
        (timeslot_thread_fn p s SIGNAL_CODE_BLOCKED_CANCELLED = some s1 ∧
          ∃ config, s.p_timeslot_config = some config ∧
            (s.blocked_cancelled_count + 1) % 256 ≤ config.skipped_tolerance)) →
      s1.timeslot_started = false ∧ s1.timeslot_stopping = false ∧
        ∀ len_us, (timeslot_start s1 len_us).1 = 0) := by
  have hidle : timeslot_thread_fn p s SIGNAL_CODE_IDLE =
      some { s with
               timeslot_requested := false
               timeslot_stopping := false
               timeslot_started := false
               trace := s.trace ++
                 [Effect.nrf_gpio_pin_write TIMESLOT_OPEN_PIN 0, Effect.call_stopped] } := by
    simp [timeslot_thread_fn, timeslot_stopped, State.call, State.emit, hstopping, hcb, hstopped]
  have hblocked : ∀ config, s.p_timeslot_config = some config →
      (s.blocked_cancelled_count + 1) % 256 ≤ config.skipped_tolerance →
      timeslot_thread_fn p s SIGNAL_CODE_BLOCKED_CANCELLED =
        some { s with
                 timeslot_requested := false
                 blocked_cancelled_count := (s.blocked_cancelled_count + 1) % 256
                 timeslot_stopping := false
                 timeslot_started := false
                 trace := s.trace ++
                   [Effect.nrf_gpio_pin_write TIMESLOT_BLOCKED_PIN 0,
                    Effect.nrf_gpio_pin_write TIMESLOT_CANCELLED_PIN 0,
                    Effect.nrf_gpio_pin_write TIMESLOT_OPEN_PIN 0,
                    Effect.call_stopped] } := by
    intro config hcfg hle
    simp [timeslot_thread_fn, timeslot_stopped, State.call, State.emit, hstopping, hcb,
      hstopped, hcfg, Nat.not_lt.mpr hle]
  refine ⟨hidle, hblocked, ?_, ?_⟩
  · intro config hcfg hgt herr
    exact blocked_beyond_tolerance p s config cb hcfg hcb herr hgt
  · intro s1 h
    rcases h with h | ⟨h, config, hcfg, hle⟩
    · rw [hidle] at h
      have h2 := Option.some.inj h
      subst h2
      refine ⟨rfl, rfl, fun len_us => ?_⟩
      simp [timeslot_start, hopen]
    · rw [hblocked config hcfg hle] at h
      have h2 := Option.some.inj h
      subst h2
      refine ⟨rfl, rfl, fun len_us => ?_⟩
      simp [timeslot_start, hopen]

/-- Start, stop, one blocked/cancelled event with the default config: the worker
calls `stopped` and clears both flags. -/
theorem stop_finalised_at_boundary_witness :
    timeslot_thread_fn sample_platform stopping_state SIGNAL_CODE_BLOCKED_CANCELLED =
      some { stopping_state with
               timeslot_requested := false
               blocked_cancelled_count := 1
               timeslot_stopping := false
               timeslot_started := false
               trace := stopping_state.trace ++
                 [Effect.nrf_gpio_pin_write TIMESLOT_BLOCKED_PIN 0,
                  Effect.nrf_gpio_pin_write TIMESLOT_CANCELLED_PIN 0,
                  Effect.nrf_gpio_pin_write TIMESLOT_OPEN_PIN 0,
                  Effect.call_stopped] } :=
  (stop_finalised_at_boundary sample_platform stopping_state sample_cb
    (by decide) (by decide) (by decide) (by decide)).2.1
    (TS_DEFAULT_CONFIG 0) (by decide) (by decide)

/-- A worker iteration for a code other than `SIGNAL_CODE_START` does not call
`start`. -/
theorem worker_call_start (p : Platform) (s s1 : State) (r : SIGNAL_CODE)
    (hr : r ≠ SIGNAL_CODE_START) (h : timeslot_thread_fn p s r = some s1) :
    s1.trace.count Effect.call_start = s.trace.count Effect.call_start := by
  cases r
  case SIGNAL_CODE_START => exact absurd rfl hr
  case SIGNAL_CODE_MPSL_START =>
    simp only [timeslot_thread_fn, State.call, State.emit] at h
    cases hcb : s.p_timeslot_callbacks with
    | none =>
      by_cases he1 : p.cfg_set_err = 0 <;> by_cases he2 : p.session_open_err = 0 <;>
        simp [hcb, he1, he2] at h
      subst h; simp
    | some cb =>
      by_cases hz : cb.error = 0 <;> by_cases he1 : p.cfg_set_err = 0 <;>
        by_cases he2 : p.session_open_err = 0 <;>
        simp [hcb, hz, he1, he2] at h <;> (subst h; simp)
  all_goals
    simp only [timeslot_thread_fn, timeslot_stopped, State.call, State.emit] at h
    repeat' split at h
    all_goals first
      | (simp at h; done)
      | (have h2 := Option.some.inj h
         subst h2
         simp)

/-- C10, as stated, fails: the handler leaves `mpsl_callback_signal` unchanged,
so a start signal that was posted while no timeslot was started (and that the
interrupt ignored) is still there.  In the run open, start signal, interrupt
entry, `timeslot_start(25000)`, `timeslot_stop()` the stop is pending; the
handler answers the next start signal with `action_end`, and the interrupt
entry that follows raises `SIGNAL_CODE_START`, on which the worker calls
`start`. -/
theorem stale_start_forwarded_while_stopping :
    run initial_state
      [Action.api_open (some (TS_DEFAULT_CONFIG 0)) (some sample_cb),
       Action.mpsl_signal MPSL_TIMESLOT_SIGNAL_START,
       Action.radio_notify,
       Action.api_start 25000,
       Action.api_stop] = some stale_start_stopping_state ∧
    stale_start_stopping_state.timeslot_stopping = true ∧
    stale_start_stopping_state.mpsl_callback_signal = some MPSL_TIMESLOT_SIGNAL_START ∧
    stale_start_stopping_state.trace.count (Effect.k_poll_signal_raise SIGNAL_CODE_START) = 0 ∧
    stale_start_stopping_state.trace.count Effect.call_start = 0 ∧
    (mpsl_cb stale_start_stopping_state MPSL_TIMESLOT_SIGNAL_START).map
        (fun r => (r.1, r.2.mpsl_callback_signal,
          (radio_notify_cb r.2).trace.count (Effect.k_poll_signal_raise SIGNAL_CODE_START)))
      = some (MPSL_TIMESLOT_SIGNAL_ACTION_END, some MPSL_TIMESLOT_SIGNAL_START, 1) ∧
    ((mpsl_cb stale_start_stopping_state MPSL_TIMESLOT_SIGNAL_START).bind
        (fun r => timeslot_thread_fn sample_platform (radio_notify_cb r.2)
          SIGNAL_CODE_START)).map (fun s1 => s1.trace.count Effect.call_start)
      = some 1 := by
  decide

/-- C10 (amended): the signal handler on `MPSL_TIMESLOT_SIGNAL_START`.  With
`timeslot_stopping` set it returns `action_end` and only toggles the debug pin:
`mpsl_callback_signal` is not written, TIMER0 is not armed, the interrupt is not
set pending.  So the handler posts no start for that window: unless a start
signal was already waiting in `mpsl_callback_signal`, the next interrupt entry
raises no `SIGNAL_CODE_START`, and the worker calls `start` for no other code.
With `timeslot_stopping` clear (and a stored config) it returns `action_none`,
writes `CC[0]`, enables the compare interrupt and posts
`MPSL_TIMESLOT_SIGNAL_START` in `mpsl_callback_signal`. -/
theorem mpsl_cb_start_spec (s : State) :
    (s.timeslot_stopping = true →
      mpsl_cb s MPSL_TIMESLOT_SIGNAL_START =
        some (MPSL_TIMESLOT_SIGNAL_ACTION_END,
          { s with trace := s.trace ++
              [Effect.nrf_gpio_pin_write TIMESLOT_OPEN_PIN 1,
               Effect.nrf_gpio_pin_write TIMESLOT_OPEN_PIN 0,
               Effect.nrf_gpio_pin_write TIMESLOT_OPEN_PIN 0,
               Effect.nrf_gpio_pin_write TIMESLOT_OPEN_PIN 0,
               Effect.nrf_gpio_pin_write TIMESLOT_OPEN_PIN 0,
               Effect.nrf_gpio_pin_write TIMESLOT_OPEN_PIN 0,
               Effect.nrf_gpio_pin_write TIMESLOT_OPEN_PIN 0,
               Effect.nrf_gpio_pin_write TIMESLOT_OPEN_PIN 1] }) ∧
      ∀ s1, mpsl_cb s MPSL_TIMESLOT_SIGNAL_START = some (MPSL_TIMESLOT_SIGNAL_ACTION_END, s1) →
        s1.mpsl_callback_signal = s.mpsl_callback_signal ∧
        (s.mpsl_callback_signal ≠ some MPSL_TIMESLOT_SIGNAL_START →
          (radio_notify_cb s1).trace.count (Effect.k_poll_signal_raise SIGNAL_CODE_START)
            = s.trace.count (Effect.k_poll_signal_raise SIGNAL_CODE_START))) ∧
    (∀ (p : Platform) (s1 s2 : State) (r : SIGNAL_CODE), r ≠ SIGNAL_CODE_START →
      timeslot_thread_fn p s1 r = some s2 →
      s2.trace.count Effect.call_start = s1.trace.count Effect.call_start) ∧
    (s.timeslot_stopping = false → ∀ config, s.p_timeslot_config = some config →
      mpsl_cb s MPSL_TIMESLOT_SIGNAL_START =
        some (MPSL_TIMESLOT_SIGNAL_ACTION_NONE,
          { s with
              mpsl_callback_signal := some MPSL_TIMESLOT_SIGNAL_START
              trace := s.trace ++
                [Effect.nrf_gpio_pin_write TIMESLOT_OPEN_PIN 1,
                 Effect.TIMER0_CC0 (sub_u32 s.ts_len_us config.safety_margin_us),
                 Effect.TIMER0_INTENSET_COMPARE0,
                 Effect.NVIC_EnableIRQ_TIMER0,
                 Effect.NVIC_SetPendingIRQ_TIMESLOT] })) := by
  refine ⟨fun hstop => ?_, fun p s1 s2 r hr h => worker_call_start p s1 s2 r hr h,
    fun hstop config hcfg => ?_⟩
  · have hcb : mpsl_cb s MPSL_TIMESLOT_SIGNAL_START =
        some (MPSL_TIMESLOT_SIGNAL_ACTION_END,
          { s with trace := s.trace ++
              [Effect.nrf_gpio_pin_write TIMESLOT_OPEN_PIN 1,
               Effect.nrf_gpio_pin_write TIMESLOT_OPEN_PIN 0,
               Effect.nrf_gpio_pin_write TIMESLOT_OPEN_PIN 0,
               Effect.nrf_gpio_pin_write TIMESLOT_OPEN_PIN 0,
               Effect.nrf_gpio_pin_write TIMESLOT_OPEN_PIN 0,
               Effect.nrf_gpio_pin_write TIMESLOT_OPEN_PIN 0,
               Effect.nrf_gpio_pin_write TIMESLOT_OPEN_PIN 0,
               Effect.nrf_gpio_pin_write TIMESLOT_OPEN_PIN 1] }) := by
      simp [mpsl_cb, State.emit, hstop]
    refine ⟨hcb, fun s1 h1 => ?_⟩
    rw [hcb] at h1
    have h2 := (Prod.mk.inj (Option.some.inj h1)).2
    subst h2
    refine ⟨rfl, fun hne => ?_⟩
    unfold radio_notify_cb
    split
    · simp [List.count_append, List.count_cons]
    · simp only
      split
      · rename_i sig hsig
        have hsig2 : sig ≠ MPSL_TIMESLOT_SIGNAL_START := fun h => hne (h ▸ hsig)
        cases sig <;> simp [State.emit, List.count_append, List.count_cons] at hsig2 ⊢
      · simp [State.emit, List.count_append, List.count_cons]
  · simp [mpsl_cb, State.emit, hstop, hcfg]

/-- The sample session with a stop pending and nothing posted: the handler
answers a start signal with `action_end`, leaves `mpsl_callback_signal` empty,
and the interrupt entry that follows raises no `SIGNAL_CODE_START`.  With no
stop pending it answers `action_none` and posts the start signal. -/
theorem mpsl_cb_start_spec_witness :
    stopping_state.timeslot_stopping = true ∧
    stopping_state.mpsl_callback_signal = none ∧
    mpsl_cb stopping_state MPSL_TIMESLOT_SIGNAL_START =
      some (MPSL_TIMESLOT_SIGNAL_ACTION_END,
        { stopping_state with trace := stopping_state.trace ++
            [Effect.nrf_gpio_pin_write TIMESLOT_OPEN_PIN 1,
             Effect.nrf_gpio_pin_write TIMESLOT_OPEN_PIN 0,
             Effect.nrf_gpio_pin_write TIMESLOT_OPEN_PIN 0,
             Effect.nrf_gpio_pin_write TIMESLOT_OPEN_PIN 0,
             Effect.nrf_gpio_pin_write TIMESLOT_OPEN_PIN 0,
             Effect.nrf_gpio_pin_write TIMESLOT_OPEN_PIN 0,
             Effect.nrf_gpio_pin_write TIMESLOT_OPEN_PIN 0,
             Effect.nrf_gpio_pin_write TIMESLOT_OPEN_PIN 1] }) ∧
    (radio_notify_cb
        { stopping_state with trace := stopping_state.trace ++
            [Effect.nrf_gpio_pin_write TIMESLOT_OPEN_PIN 1,
             Effect.nrf_gpio_pin_write TIMESLOT_OPEN_PIN 0,
             Effect.nrf_gpio_pin_write TIMESLOT_OPEN_PIN 0,
             Effect.nrf_gpio_pin_write TIMESLOT_OPEN_PIN 0,
             Effect.nrf_gpio_pin_write TIMESLOT_OPEN_PIN 0,
             Effect.nrf_gpio_pin_write TIMESLOT_OPEN_PIN 0,
             Effect.nrf_gpio_pin_write TIMESLOT_OPEN_PIN 0,
             Effect.nrf_gpio_pin_write TIMESLOT_OPEN_PIN 1] }).trace.count
        (Effect.k_poll_signal_raise SIGNAL_CODE_START)
      = stopping_state.trace.count (Effect.k_poll_signal_raise SIGNAL_CODE_START) ∧
    (mpsl_cb started_state MPSL_TIMESLOT_SIGNAL_START).map
        (fun r => (r.1, r.2.mpsl_callback_signal))
      = some (MPSL_TIMESLOT_SIGNAL_ACTION_NONE, some MPSL_TIMESLOT_SIGNAL_START) :=
  ⟨by decide, by decide,
   ((mpsl_cb_start_spec stopping_state).1 (by decide)).1,
   (((mpsl_cb_start_spec stopping_state).1 (by decide)).2 _
      ((mpsl_cb_start_spec stopping_state).1 (by decide)).1).2 (by decide),
   by rw [(mpsl_cb_start_spec started_state).2.2 (by decide) (TS_DEFAULT_CONFIG 0) (by decide)]
      rfl⟩

/-! ## Theorems: the worker on start and end of a window -/

/-- C11: the worker on `SIGNAL_CODE_START` calls `start` once and no other
callback, and sets `blocked_cancelled_count` to 0 whatever it was;
`timeslot_started`, `timeslot_stopping`, `timeslot_requested`, `ts_len_us`,
`request_earliest` and everything else are unchanged.  This holds in every state
whose callback table has a non-null `start`, hence in every state of an open
session reached by a run from the initial state. -/
theorem worker_start_spec (p : Platform) :
    (∀ (s : State) (cb : timeslot_cb), s.p_timeslot_callbacks = some cb → cb.start ≠ 0 →
      timeslot_thread_fn p s SIGNAL_CODE_START =
        some { s with
                 blocked_cancelled_count := 0
                 trace := s.trace ++ [Effect.call_start] }) ∧
    (∀ (acts : List Action) (s : State), run initial_state acts = some s →
      s.session_open = true →
      timeslot_thread_fn p s SIGNAL_CODE_START =
        some { s with
                 blocked_cancelled_count := 0
                 trace := s.trace ++ [Effect.call_start] }) := by
  have key : ∀ (s : State) (cb : timeslot_cb), s.p_timeslot_callbacks = some cb →
      cb.start ≠ 0 →
      timeslot_thread_fn p s SIGNAL_CODE_START =
        some { s with
                 blocked_cancelled_count := 0
                 trace := s.trace ++ [Effect.call_start] } := by
    intro s cb hcb hstart
    simp [timeslot_thread_fn, State.call, State.emit, hcb, hstart]
  refine ⟨key, fun acts s hrun hopen => ?_⟩
  obtain ⟨-, cb, -, hcb, -, hstart, -⟩ :=
    run_openInv acts initial_state s openInv_initial_state hrun hopen
  exact key s cb hcb hstart

/-- The sample session after three skipped timeslots: a start event calls
`start` and resets the counter from 3 to 0. -/
theorem worker_start_spec_witness :
    timeslot_thread_fn sample_platform { started_state with blocked_cancelled_count := 3 }
        SIGNAL_CODE_START =
      some { started_state with
               blocked_cancelled_count := 0
               trace := started_state.trace ++ [Effect.call_start] } :=
  (worker_start_spec sample_platform).1 { started_state with blocked_cancelled_count := 3 }
    sample_cb (by decide) (by decide)

/-- The signal handler changes no flag, calls no `stopped` and makes no request. -/
theorem mpsl_cb_flags_frame (s s1 : State) (signal : MPSL_TIMESLOT_SIGNAL)
    (a : callback_action) (h : mpsl_cb s signal = some (a, s1)) :
    s1.timeslot_stopping = s.timeslot_stopping ∧
    s1.timeslot_started = s.timeslot_started ∧
    s1.timeslot_requested = s.timeslot_requested ∧
    s1.trace.count Effect.call_stopped = s.trace.count Effect.call_stopped ∧
    requests_in s1.trace = requests_in s.trace := by
  cases signal <;> simp only [mpsl_cb, State.emit] at h <;> (repeat' split at h)
  all_goals first
    | (simp at h; done)
    | (have h2 := Option.some.inj h
       have h3 := (Prod.mk.inj h2).2
       subst h3
       simp [requests_in, Effect.is_request])

/-- The timeslot interrupt changes no flag, calls no `stopped` and makes no
request. -/
theorem radio_notify_cb_flags_frame (s : State) :
    (radio_notify_cb s).timeslot_stopping = s.timeslot_stopping ∧
    (radio_notify_cb s).timeslot_started = s.timeslot_started ∧
    (radio_notify_cb s).timeslot_requested = s.timeslot_requested ∧
    (radio_notify_cb s).trace.count Effect.call_stopped
      = s.trace.count Effect.call_stopped ∧
    requests_in (radio_notify_cb s).trace = requests_in s.trace := by
  unfold radio_notify_cb
  split
  · simp
  · split
    · split <;> simp [State.emit, requests_in, Effect.is_request]
    · simp [State.emit, requests_in, Effect.is_request]

/-- A worker iteration for a code other than `SIGNAL_CODE_IDLE` and
`SIGNAL_CODE_BLOCKED_CANCELLED` leaves `timeslot_stopping` and
`timeslot_started` alone and does not call `stopped`. -/
theorem worker_stop_frame (p : Platform) (s s1 : State) (r : SIGNAL_CODE)
    (hidle : r ≠ SIGNAL_CODE_IDLE) (hblocked : r ≠ SIGNAL_CODE_BLOCKED_CANCELLED)
    (h : timeslot_thread_fn p s r = some s1) :
    s1.timeslot_stopping = s.timeslot_stopping ∧
    s1.timeslot_started = s.timeslot_started ∧
    s1.trace.count Effect.call_stopped = s.trace.count Effect.call_stopped := by
  cases r
  case SIGNAL_CODE_IDLE => exact absurd rfl hidle
  case SIGNAL_CODE_BLOCKED_CANCELLED => exact absurd rfl hblocked
  case SIGNAL_CODE_START =>
    simp only [timeslot_thread_fn] at h
    cases hc : s.call (fun cb => cb.start) Effect.call_start with
    | none => rw [hc] at h; exact absurd h (by simp)
    | some s2 =>
      rw [hc] at h
      have h2 := call_some_imp _ _ _ _ hc
      subst h2
      have h3 := Option.some.inj h
      subst h3
      simp [State.emit]
  case SIGNAL_CODE_MPSL_START =>
    simp only [timeslot_thread_fn, State.call, State.emit] at h
    cases hcb : s.p_timeslot_callbacks with
    | none =>
      by_cases he1 : p.cfg_set_err = 0 <;> by_cases he2 : p.session_open_err = 0 <;>
        simp [hcb, he1, he2] at h
      subst h; simp
    | some cb =>
      by_cases hz : cb.error = 0 <;> by_cases he1 : p.cfg_set_err = 0 <;>
        by_cases he2 : p.session_open_err = 0 <;>
        simp [hcb, hz, he1, he2] at h <;> (subst h; simp)
  all_goals
    simp only [timeslot_thread_fn, State.call, State.emit] at h
    repeat' split at h
    all_goals first
      | (simp at h; done)
      | (have h2 := Option.some.inj h
         subst h2
         simp)

/-- C12: with an open session and a started timeslot, `timeslot_stop` returns 0
and a following `MPSL_TIMESLOT_SIGNAL_TIMER0` is still handled in full: the
handler stops TIMER0, posts the signal, sets the interrupt pending and returns
`action_end`; the interrupt raises `SIGNAL_CODE_TIMER0` and empties
`mpsl_callback_signal`; the worker calls `end` once; both flags stay set.
Moreover no signal handled by `mpsl_cb`, no interrupt entry, and no worker
iteration other than those for `SIGNAL_CODE_IDLE` and
`SIGNAL_CODE_BLOCKED_CANCELLED` changes `timeslot_stopping` or
`timeslot_started` or calls `stopped`. -/
theorem stop_mid_window_spec (p : Platform) (s : State) (cb : timeslot_cb)
    (hopen : s.session_open = true) (hstarted : s.timeslot_started = true)
    (hcb : s.p_timeslot_callbacks = some cb) (hend : cb.end_ ≠ 0) :
    timeslot_stop s = (0, { s with timeslot_stopping := true }) ∧
    mpsl_cb { s with timeslot_stopping := true } MPSL_TIMESLOT_SIGNAL_TIMER0 =
      some (MPSL_TIMESLOT_SIGNAL_ACTION_END,
        { s with
            timeslot_stopping := true
            mpsl_callback_signal := some MPSL_TIMESLOT_SIGNAL_TIMER0
            trace := s.trace ++
              [Effect.nrf_gpio_pin_write TIMESLOT_OPEN_PIN 0,
               Effect.TIMER0_TASKS_STOP,
               Effect.NVIC_SetPendingIRQ_TIMESLOT] }) ∧
    radio_notify_cb
        { s with
            timeslot_stopping := true
            mpsl_callback_signal := some MPSL_TIMESLOT_SIGNAL_TIMER0
            trace := s.trace ++
              [Effect.nrf_gpio_pin_write TIMESLOT_OPEN_PIN 0,
               Effect.TIMER0_TASKS_STOP,
               Effect.NVIC_SetPendingIRQ_TIMESLOT] } =
      { s with
          timeslot_stopping := true
          mpsl_callback_signal := none
          trace := s.trace ++
            [Effect.nrf_gpio_pin_write TIMESLOT_OPEN_PIN 0,
             Effect.TIMER0_TASKS_STOP,
             Effect.NVIC_SetPendingIRQ_TIMESLOT,
             Effect.k_poll_signal_raise SIGNAL_CODE_TIMER0] } ∧
    timeslot_thread_fn p
        { s with
            timeslot_stopping := true
            mpsl_callback_signal := none
            trace := s.trace ++
              [Effect.nrf_gpio_pin_write TIMESLOT_OPEN_PIN 0,
               Effect.TIMER0_TASKS_STOP,
               Effect.NVIC_SetPendingIRQ_TIMESLOT,
               Effect.k_poll_signal_raise SIGNAL_CODE_TIMER0] }
        SIGNAL_CODE_TIMER0 =
      some { s with
               timeslot_stopping := true
               mpsl_callback_signal := none
               trace := s.trace ++
                 [Effect.nrf_gpio_pin_write TIMESLOT_OPEN_PIN 0,
                  Effect.TIMER0_TASKS_STOP,
                  Effect.NVIC_SetPendingIRQ_TIMESLOT,
                  Effect.k_poll_signal_raise SIGNAL_CODE_TIMER0,
                  Effect.call_end] } ∧
    (∀ (s0 s1 : State) (signal : MPSL_TIMESLOT_SIGNAL) (a : callback_action),
      mpsl_cb s0 signal = some (a, s1) →
      s1.timeslot_stopping = s0.timeslot_stopping ∧
      s1.timeslot_started = s0.timeslot_started ∧
      s1.trace.count Effect.call_stopped = s0.trace.count Effect.call_stopped) ∧
    (∀ s0 : State,
      (radio_notify_cb s0).timeslot_stopping = s0.timeslot_stopping ∧
      (radio_notify_cb s0).timeslot_started = s0.timeslot_started ∧
      (radio_notify_cb s0).trace.count Effect.call_stopped
        = s0.trace.count Effect.call_stopped) ∧
    (∀ (q : Platform) (s0 s1 : State) (r : SIGNAL_CODE),
      r ≠ SIGNAL_CODE_IDLE → r ≠ SIGNAL_CODE_BLOCKED_CANCELLED →
      timeslot_thread_fn q s0 r = some s1 →
      s1.timeslot_stopping = s0.timeslot_stopping ∧
      s1.timeslot_started = s0.timeslot_started ∧
      s1.trace.count Effect.call_stopped = s0.trace.count Effect.call_stopped) := by
  refine ⟨?_, ?_, ?_, ?_, ?_, ?_, ?_⟩
  · simp [timeslot_stop, hopen, hstarted]
  · simp [mpsl_cb, State.emit]
  · simp [radio_notify_cb, State.emit, hstarted]
  · simp [timeslot_thread_fn, State.call, State.emit, hcb, hend]
  · intro s0 s1 signal a h
    obtain ⟨f1, f2, -, f4, -⟩ := mpsl_cb_flags_frame s0 s1 signal a h
    exact ⟨f1, f2, f4⟩
  · intro s0
    obtain ⟨f1, f2, -, f4, -⟩ := radio_notify_cb_flags_frame s0
    exact ⟨f1, f2, f4⟩
  · intro q s0 s1 r h1 h2 h
    exact worker_stop_frame q s0 s1 r h1 h2 h

/-- The sample session: `timeslot_stop()` after `timeslot_start(25000)` returns
0, and the worker still calls `end` for the window that is open. -/
theorem stop_mid_window_spec_witness :
    timeslot_stop started_state = (0, { started_state with timeslot_stopping := true }) ∧
    timeslot_thread_fn sample_platform
        { started_state with
            timeslot_stopping := true
            mpsl_callback_signal := none
            trace := started_state.trace ++
              [Effect.nrf_gpio_pin_write TIMESLOT_OPEN_PIN 0,
               Effect.TIMER0_TASKS_STOP,
               Effect.NVIC_SetPendingIRQ_TIMESLOT,
               Effect.k_poll_signal_raise SIGNAL_CODE_TIMER0] }
        SIGNAL_CODE_TIMER0 =
      some { started_state with
               timeslot_stopping := true
               mpsl_callback_signal := none
               trace := started_state.trace ++
                 [Effect.nrf_gpio_pin_write TIMESLOT_OPEN_PIN 0,
                  Effect.TIMER0_TASKS_STOP,
                  Effect.NVIC_SetPendingIRQ_TIMESLOT,
                  Effect.k_poll_signal_raise SIGNAL_CODE_TIMER0,
                  Effect.call_end] } :=
  ⟨(stop_mid_window_spec sample_platform started_state sample_cb
      (by decide) (by decide) (by decide) (by decide)).1,
   (stop_mid_window_spec sample_platform started_state sample_cb
      (by decide) (by decide) (by decide) (by decide)).2.2.2.1⟩

/-! ## Theorems: the timeslot interrupt -/

/-- C14, as stated, fails: in the opened sample session with no timeslot
started and `MPSL_TIMESLOT_SIGNAL_START` posted in `mpsl_callback_signal`, an
interrupt entry returns at once: nothing is raised and the posted signal stays
where it is. -/
theorem relay_ignores_mailbox_when_not_started :
    posted_not_started_state.timeslot_started = false ∧
    posted_not_started_state.mpsl_callback_signal = some MPSL_TIMESLOT_SIGNAL_START ∧
    radio_notify_cb posted_not_started_state = posted_not_started_state ∧
    (radio_notify_cb posted_not_started_state).mpsl_callback_signal
      = some MPSL_TIMESLOT_SIGNAL_START := by
  decide

/-- C14 (amended): while a timeslot is started, an interrupt entry that finds a
signal posted by the handler raises exactly the matching code
(`MPSL_TIMESLOT_SIGNAL_START` as `SIGNAL_CODE_START`, `..._TIMER0` as
`SIGNAL_CODE_TIMER0`, `..._RADIO` as `SIGNAL_CODE_RADIO`), nothing else, and
resets `mpsl_callback_signal` to `INVALID_MPSL_SIGNAL`.  While no timeslot is
started the entry does nothing: no code is raised and `mpsl_callback_signal`
keeps its value. -/
theorem relay_forwards_mailbox (s : State) :
    (s.timeslot_started = true →
      (s.mpsl_callback_signal = some MPSL_TIMESLOT_SIGNAL_START →
        radio_notify_cb s =
          { s with
              mpsl_callback_signal := none
              trace := s.trace ++ [Effect.k_poll_signal_raise SIGNAL_CODE_START] }) ∧
      (s.mpsl_callback_signal = some MPSL_TIMESLOT_SIGNAL_TIMER0 →
        radio_notify_cb s =
          { s with
              mpsl_callback_signal := none
              trace := s.trace ++ [Effect.k_poll_signal_raise SIGNAL_CODE_TIMER0] }) ∧
      (s.mpsl_callback_signal = some MPSL_TIMESLOT_SIGNAL_RADIO →
        radio_notify_cb s =
          { s with
              mpsl_callback_signal := none
              trace := s.trace ++ [Effect.k_poll_signal_raise SIGNAL_CODE_RADIO] })) ∧
    (s.timeslot_started = false → radio_notify_cb s = s) := by
  refine ⟨fun hs => ⟨fun h => ?_, fun h => ?_, fun h => ?_⟩, fun hs => ?_⟩
  · simp [radio_notify_cb, State.emit, hs, h]
  · simp [radio_notify_cb, State.emit, hs, h]
  · simp [radio_notify_cb, State.emit, hs, h]
  · simp [radio_notify_cb, hs]

/-- The started sample session with a posted start signal: the interrupt raises
`SIGNAL_CODE_START` and empties `mpsl_callback_signal`. -/
theorem relay_forwards_mailbox_witness :
    radio_notify_cb
        { started_state with mpsl_callback_signal := some MPSL_TIMESLOT_SIGNAL_START } =
      { started_state with
          mpsl_callback_signal := none
          trace := started_state.trace ++ [Effect.k_poll_signal_raise SIGNAL_CODE_START] } :=
  ((relay_forwards_mailbox
    { started_state with mpsl_callback_signal := some MPSL_TIMESLOT_SIGNAL_START }).1
      (by decide)).1 (by decide)

/-! ## Theorems: the window timer -/

/-- Unsigned subtraction is the integer difference when it does not wrap. -/
theorem sub_u32_of_le (a b : Nat) (hle : b ≤ a) (ha : a < 4294967296) :
    sub_u32 a b = a - b ∧ sub_u32 a b ≤ a := by
  unfold sub_u32
  have hb : b % 4294967296 = b := Nat.mod_eq_of_lt (by omega)
  have ha2 : a % 4294967296 = a := Nat.mod_eq_of_lt ha
  rw [ha2, hb]
  by_cases h0 : b = 0
  · subst h0
    simp [ha2]
  · have : (a + (4294967296 - b)) = (a - b) + 4294967296 := by omega
    rw [this, Nat.add_mod_right, Nat.mod_eq_of_lt (by omega)]
    exact ⟨rfl, Nat.sub_le a b⟩

/-- Unsigned subtraction wraps past `2 ^ 32` when the subtrahend is larger. -/
theorem sub_u32_of_lt (a b : Nat) (hlt : a < b) (hb : b < 4294967296) :
    sub_u32 a b = a + 4294967296 - b ∧ a < sub_u32 a b := by
  unfold sub_u32
  have hb2 : b % 4294967296 = b := Nat.mod_eq_of_lt hb
  have ha2 : a % 4294967296 = a := Nat.mod_eq_of_lt (by omega)
  rw [ha2, hb2, Nat.mod_eq_of_lt (by omega)]
  omega

/-- C15: with `safety_margin_us = 30000` and an accepted `timeslot_start(25000)`,
the handler arms TIMER0 on the start signal (no stop pending) with the compare
value 4294962296 = 25000 - 30000 + 2 ^ 32 (unsigned wrap), which is neither the
integer 25000 - 30000 nor at most 25000. -/
theorem timer_compare_wraps :
    (timeslot_start
      (timeslot_open initial_state (some config_margin_30000) (some sample_cb)).2 25000).1 = 0 ∧
    started_state_margin_30000.timeslot_stopping = false ∧
    mpsl_cb started_state_margin_30000 MPSL_TIMESLOT_SIGNAL_START =
      some (MPSL_TIMESLOT_SIGNAL_ACTION_NONE,
        { started_state_margin_30000 with
            mpsl_callback_signal := some MPSL_TIMESLOT_SIGNAL_START
            trace := started_state_margin_30000.trace ++
              [Effect.nrf_gpio_pin_write TIMESLOT_OPEN_PIN 1,
               Effect.TIMER0_CC0 4294962296,
               Effect.TIMER0_INTENSET_COMPARE0,
               Effect.NVIC_EnableIRQ_TIMER0,
               Effect.NVIC_SetPendingIRQ_TIMESLOT] }) ∧
    (25000 : Nat) < 4294962296 := by
  decide

/-! ## Theorems: at most one outstanding request -/

/-- What one worker iteration does to `timeslot_requested` and to the number of
requests made: only `SIGNAL_CODE_RNH_ACTIVE` with the flag clear makes a
request (and sets the flag); only `SIGNAL_CODE_BLOCKED_CANCELLED` and
`SIGNAL_CODE_IDLE` clear the flag. -/
theorem worker_request_frame (p : Platform) (s s1 : State) (r : SIGNAL_CODE)
    (h : timeslot_thread_fn p s r = some s1) :
    requests_in s1.trace =
      requests_in s.trace +
        (if r = SIGNAL_CODE_RNH_ACTIVE ∧ s.timeslot_requested = false then 1 else 0) ∧
    s1.timeslot_requested =
      (if r = SIGNAL_CODE_RNH_ACTIVE then true
       else if r = SIGNAL_CODE_BLOCKED_CANCELLED ∨ r = SIGNAL_CODE_IDLE then false
       else s.timeslot_requested) := by
  cases r
  case SIGNAL_CODE_START =>
    simp only [timeslot_thread_fn] at h
    cases hc : s.call (fun cb => cb.start) Effect.call_start with
    | none => rw [hc] at h; exact absurd h (by simp)
    | some s2 =>
      rw [hc] at h
      have h2 := call_some_imp _ _ _ _ hc
      subst h2
      have h3 := Option.some.inj h
      subst h3
      simp [State.emit, requests_in, Effect.is_request]
  case SIGNAL_CODE_MPSL_START =>
    simp only [timeslot_thread_fn, State.call, State.emit] at h
    cases hcb : s.p_timeslot_callbacks with
    | none =>
      by_cases he1 : p.cfg_set_err = 0 <;> by_cases he2 : p.session_open_err = 0 <;>
        simp [hcb, he1, he2] at h
      subst h; simp [requests_in, Effect.is_request]
    | some cb =>
      by_cases hz : cb.error = 0 <;> by_cases he1 : p.cfg_set_err = 0 <;>
        by_cases he2 : p.session_open_err = 0 <;>
        simp [hcb, hz, he1, he2] at h <;> (subst h; simp [requests_in, Effect.is_request])
  all_goals
    simp only [timeslot_thread_fn, timeslot_stopped, State.call, State.emit] at h
    repeat' split at h
    all_goals first
      | (simp at h; done)
      | (have h2 := Option.some.inj h
         subst h2
         simp_all [requests_in, Effect.is_request])

/-- One action and the request budget: a blocked/cancelled or idle event makes
no request; any other action keeps the budget, and keeps a set
`timeslot_requested` set without making a request. -/
theorem step_request_budget (s s1 : State) (a : Action) (h : step s a = some s1) :
    (a.is_boundary = true → requests_in s1.trace = requests_in s.trace) ∧
    (a.is_boundary = false →
      request_budget s1 = request_budget s ∧
      (s.timeslot_requested = true →
        s1.timeslot_requested = true ∧ requests_in s1.trace = requests_in s.trace)) := by
  have same : ∀ s2 : State, s2.timeslot_requested = s.timeslot_requested →
      requests_in s2.trace = requests_in s.trace →
      request_budget s2 = request_budget s ∧
      (s.timeslot_requested = true →
        s2.timeslot_requested = true ∧ requests_in s2.trace = requests_in s.trace) := by
    intro s2 h1 h2
    refine ⟨by simp [request_budget, h1, h2], fun h3 => ⟨h1.trans h3, h2⟩⟩
  cases a with
  | api_open p_config p_cb =>
    have h1 := Option.some.inj h
    subst h1
    refine ⟨fun hb => by simp [Action.is_boundary] at hb, fun _ => same _ ?_ ?_⟩
    · unfold timeslot_open; repeat' split
      all_goals simp [State.emit]
    · unfold timeslot_open; repeat' split
      all_goals simp [State.emit, requests_in, Effect.is_request]
  | api_start len_us =>
    have h1 := Option.some.inj h
    subst h1
    refine ⟨fun hb => by simp [Action.is_boundary] at hb, fun _ => same _ ?_ ?_⟩
    · unfold timeslot_start; split <;> rfl
    · unfold timeslot_start; split <;> rfl
  | api_stop =>
    have h1 := Option.some.inj h
    subst h1
    refine ⟨fun hb => by simp [Action.is_boundary] at hb, fun _ => same _ ?_ ?_⟩
    · unfold timeslot_stop; split <;> rfl
    · unfold timeslot_stop; split <;> rfl
  | mpsl_signal signal =>
    simp only [step] at h
    cases hm : mpsl_cb s signal with
    | none => rw [hm] at h; exact absurd h (by simp)
    | some r =>
      rw [hm] at h
      have h1 := Option.some.inj h
      subst h1
      obtain ⟨-, -, f3, -, f5⟩ := mpsl_cb_flags_frame s r.2 signal r.1 hm
      exact ⟨fun hb => by simp [Action.is_boundary] at hb, fun _ => same _ f3 f5⟩
  | radio_notify =>
    have h1 := Option.some.inj h
    subst h1
    obtain ⟨-, -, f3, -, f5⟩ := radio_notify_cb_flags_frame s
    exact ⟨fun hb => by simp [Action.is_boundary] at hb, fun _ => same _ f3 f5⟩
  | worker p result =>
    obtain ⟨f1, f2⟩ := worker_request_frame p s s1 result h
    cases result <;> simp [Action.is_boundary] at f1 f2 ⊢
    all_goals first
      | exact f1
      | exact same s1 f2 f1
      | (cases hr : s.timeslot_requested <;> simp [hr] at f1 <;>
          simp [request_budget, f1, f2, hr])

/-- In every run the request budget grows by at most one per blocked/cancelled
or idle event the worker handles. -/
theorem run_request_budget (acts : List Action) : ∀ (s s1 : State),
    run s acts = some s1 →
    request_budget s1 ≤ request_budget s + boundaries_in acts := by
  induction acts with
  | nil =>
    intro s s1 h
    have h1 := Option.some.inj h
    subst h1
    simp [boundaries_in]
  | cons a as ih =>
    intro s s1 h
    simp only [run] at h
    cases hs : step s a with
    | none => rw [hs] at h; exact absurd h (by simp)
    | some s2 =>
      rw [hs] at h
      have h1 := ih s2 s1 h
      obtain ⟨f1, f2⟩ := step_request_budget s s2 a hs
      cases hb : a.is_boundary with
      | true =>
        have h2 := f1 hb
        have h3 : request_budget s2 ≤ request_budget s + 1 := by
          simp only [request_budget, h2]
          split <;> split <;> omega
        have h4 : boundaries_in (a :: as) = boundaries_in as + 1 := by
          simp [boundaries_in, List.countP_cons, hb]
        omega
      | false =>
        have h2 := (f2 hb).1
        have h4 : boundaries_in (a :: as) = boundaries_in as := by
          simp [boundaries_in, List.countP_cons, hb]
        omega

/-- A run without blocked/cancelled or idle events, started with
`timeslot_requested` set, ends with it set and makes no request. -/
theorem run_no_boundary (acts : List Action) : ∀ (s s1 : State),
    run s acts = some s1 → boundaries_in acts = 0 → s.timeslot_requested = true →
    s1.timeslot_requested = true ∧ requests_in s1.trace = requests_in s.trace := by
  induction acts with
  | nil =>
    intro s s1 h _ hr
    have h1 := Option.some.inj h
    subst h1
    exact ⟨hr, rfl⟩
  | cons a as ih =>
    intro s s1 h hb hr
    simp only [run] at h
    cases hs : step s a with
    | none => rw [hs] at h; exact absurd h (by simp)
    | some s2 =>
      rw [hs] at h
      have hb2 : a.is_boundary = false ∧ boundaries_in as = 0 := by
        cases hba : a.is_boundary with
        | true => simp [boundaries_in, List.countP_cons, hba] at hb
        | false => simpa [boundaries_in, List.countP_cons, hba] using hb
      obtain ⟨g1, g2⟩ := ((step_request_budget s s2 a hs).2 hb2.1).2 hr
      obtain ⟨g3, g4⟩ := ih s2 s1 h hb2.2 g1
      exact ⟨g3, g4.trans g2⟩

/-- C16: when the worker handles `SIGNAL_CODE_RNH_ACTIVE` with
`timeslot_requested` clear and `mpsl_timeslot_request` returns a non-zero `err`,
it makes that one request, calls `error(err)` once and leaves
`timeslot_requested` set.  In every run of actions, from any state, the number
of requests made is at most one plus the number of blocked/cancelled and idle
events the worker handled; and a run without such events that starts with
`timeslot_requested` set makes no request at all. -/
theorem request_rejected_spec (p : Platform) :
    (∀ (s : State) (cb : timeslot_cb), s.timeslot_requested = false →
      p.request_err ≠ 0 → s.p_timeslot_callbacks = some cb → cb.error ≠ 0 →
      timeslot_thread_fn p s SIGNAL_CODE_RNH_ACTIVE =
        some { s with
                 timeslot_requested := true
                 trace := s.trace ++
                   [Effect.nrf_gpio_pin_write REQUEST_PIN 1,
                    Effect.k_sleep_usec (p.CONFIG_SDC_MAX_CONN_EVENT_LEN_DEFAULT - 2600 + 800),
                    Effect.nrf_gpio_pin_write REQUEST_PIN 0,
                    Effect.mpsl_timeslot_request s.mpsl_session_id s.request_earliest,
                    Effect.call_error p.request_err] }) ∧
    (∀ (acts : List Action) (s s1 : State), run s acts = some s1 →
      requests_in s1.trace ≤ requests_in s.trace + 1 + boundaries_in acts) ∧
    (∀ (acts : List Action) (s s1 : State), run s acts = some s1 →
      boundaries_in acts = 0 → s.timeslot_requested = true →
      s1.timeslot_requested = true ∧ requests_in s1.trace = requests_in s.trace) := by
  refine ⟨?_, ?_, ?_⟩
  · intro s cb hreq he hcb herr
    simp [timeslot_thread_fn, hreq, he, State.emit, State.call, hcb, herr,
      TS_REQUEST_DELAY_US, TS_RNH_DISTANCE_US]
  · intro acts s s1 h
    have h1 := run_request_budget acts s s1 h
    have h2 : requests_in s1.trace ≤ request_budget s1 := by
      simp [request_budget]
    have h3 : request_budget s ≤ requests_in s.trace + 1 := by
      simp only [request_budget]
      split <;> omega
    omega
  · intro acts s s1 h hb hr
    exact run_no_boundary acts s s1 h hb hr

/-- The sample session with `mpsl_timeslot_request` failing with -22: the worker
calls `error(-22)` and leaves `timeslot_requested` set. -/
theorem request_rejected_spec_witness :
    timeslot_thread_fn rejecting_platform started_state SIGNAL_CODE_RNH_ACTIVE =
      some { started_state with
               timeslot_requested := true
               trace := started_state.trace ++
                 [Effect.nrf_gpio_pin_write REQUEST_PIN 1,
                  Effect.k_sleep_usec (7500 - 2600 + 800),
                  Effect.nrf_gpio_pin_write REQUEST_PIN 0,
                  Effect.mpsl_timeslot_request started_state.mpsl_session_id
                    started_state.request_earliest,
                  Effect.call_error (-22)] } :=
  (request_rejected_spec rejecting_platform).1 started_state sample_cb
    (by decide) (by decide) (by decide) (by decide)

end Timeslot
